import Mathlib

/-!
# waynergy: network session manager and poll loop (`src/net.c`)

A shallow embedding of `src/net.c`.  Every C function is a Lean function of the
same name.  The session context is passed explicitly.  The outside world
(operating system, libtls, persisted configuration, protocol engine, display
and clipboard collaborators) is an explicit `World` value together with the
answers the outside world gives to each call.  The calls to the operating
system, to libtls, to the configuration module, to the log, to the engine and
to the display and clipboard collaborators are appended to `World.trace` in
program order; memory management and string helpers (`xasprintf`, `xstrdup`,
`free`, `tls_error`, `gai_strerror`, `osGetHomeConfigPath`) are not recorded.
Loops whose length depends on the outside world take the list of answers as
their fuel and hand back `none` when the answers run out.
-/

namespace Waynergy

/-! ## Data model -/

/-- One resolved candidate address, a node of the list `getaddrinfo` produces. -/
structure addrinfo where
  ai_family : Int
  ai_socktype : Int
  ai_protocol : Int
  ai_addr : Nat
deriving DecidableEq, Repr

/-- Modelled from the spec: the values of the engine's "last error" field.  The
enumeration lives in `uSynergy.h`, which is not among the sources; only the
timeout value is named by `net.c`. -/
inductive uSynergyError where
  | USYNERGY_ERROR_NONE
  | USYNERGY_ERROR_TIMEOUT
  | USYNERGY_ERROR_OTHER (code : Nat)
deriving DecidableEq, Repr

/-- The fields of `uSynergyContext` that `net.c` reads or writes. -/
structure uSynergyContext where
  m_connected : Bool
  m_lastMessageTime : Nat
  m_lastError : uSynergyError
deriving DecidableEq, Repr

/-- The session context `struct synNetContext`.  `fd = -1` means no socket;
`tls_ctx` and `tls_hash` are pointers, `none` standing for `NULL`.  The engine
the context points to through `syn_ctx` is carried inside it. -/
structure synNetContext where
  host : String
  port : String
  fd : Int
  tls : Bool
  tls_tofu : Bool
  tls_ctx : Option Nat
  tls_hash : Option String
  syn_ctx : uSynergyContext
deriving DecidableEq, Repr

/-- The assignment `snet_ctx->fd = v`. -/
@[simps]
def synNetContext.set_fd (c : synNetContext) (v : Int) : synNetContext :=
  { c with fd := v }

/-- The assignment `snet_ctx->tls_ctx = v`. -/
@[simps]
def synNetContext.set_tls_ctx (c : synNetContext) (v : Option Nat) : synNetContext :=
  { c with tls_ctx := v }

/-- The assignment `snet_ctx->tls_hash = v`. -/
@[simps]
def synNetContext.set_tls_hash (c : synNetContext) (v : Option String) :
    synNetContext :=
  { c with tls_hash := v }

/-- The assignment `snet_ctx->syn_ctx->m_connected = v`. -/
@[simps]
def synNetContext.set_m_connected (c : synNetContext) (v : Bool) : synNetContext :=
  { c with syn_ctx := { c.syn_ctx with m_connected := v } }

/-- The assignment `snet_ctx->syn_ctx->m_lastMessageTime = v`. -/
@[simps]
def synNetContext.set_m_lastMessageTime (c : synNetContext) (v : Nat) :
    synNetContext :=
  { c with syn_ctx := { c.syn_ctx with m_lastMessageTime := v } }

/-- The assignment `snet_ctx->syn_ctx->m_lastError = v`. -/
@[simps]
def synNetContext.set_m_lastError (c : synNetContext) (v : uSynergyError) :
    synNetContext :=
  { c with syn_ctx := { c.syn_ctx with m_lastError := v } }

/-- Calls that leave `net.c`, recorded in program order.  `synNetDisconnect`
marks the entry into the function of that name. -/
inductive Event where
  | socket (ai : addrinfo)
  | connect (fd : Int) (ai : addrinfo)
  | tls_client
  | tls_config_new
  | configTryString (path : String)
  | osFileExists (path : String)
  | tls_config_set_cert_file
  | tls_config_insecure_noverifycert
  | tls_config_insecure_noverifyname
  | tls_configure
  | tls_config_free
  | tls_connect_socket (fd : Int) (host : String)
  | tls_handshake
  | tls_peer_cert_hash
  | configWriteString (path : String) (val : String)
  | getaddrinfo (host : String) (port : String)
  | freeaddrinfo
  | alarm (seconds : Nat)
  | m_getTimeFunc
  | synNetDisconnect
  | tls_close (handle : Nat)
  | tls_free (handle : Nat)
  | shutdown (fd : Int)
  | close (fd : Int)
  | tls_write (pos : Int) (len : Nat) (ret : Int)
  | write_full (fd : Int) (len : Int)
  | tls_read
  | read (fd : Int)
  | wlPrepareFd
  | poll (nfd : Nat)
  | sigHandleRun
  | uSynergyUpdate
  | wlPollProc (revents : Int)
  | clipMonitorPollProc (slot : Nat)
  | logErr (msg : String)
  | logPErr (msg : String)
  | logInfo (msg : String)
deriving DecidableEq, Repr

/-- The world outside the session context: the persisted key-value
configuration (the trust store lives under `tls/hash/<host>`) and the record of
calls made so far. -/
structure World where
  store : List (String × String)
  trace : List Event
deriving DecidableEq, Repr

/-- Append one call to the record. -/
def World.emit (w : World) (ev : Event) : World :=
  { w with trace := w.trace ++ [ev] }

/-- Replace the persisted configuration. -/
def World.setStore (w : World) (st : List (String × String)) : World :=
  { w with store := st }

/-- What a function of `net.c` hands back: its return value, the session
context and the world as it left them. -/
structure Outcome (α : Type) where
  ret : α
  ctx : synNetContext
  world : World

/-! ## Collaborators outside `net.c` -/

/-- Modelled from the spec: `configTryString(path, NULL)` of the configuration
module, which is not among the sources.  "get returns absent-or-string". -/
def configTryString (store : List (String × String)) (path : String) : Option String :=
  match store with
  | [] => none
  | (k, v) :: rest => if k = path then some v else configTryString rest path

/-- Modelled from the spec: `configWriteString(path, val, 0)` of the
configuration module, which is not among the sources.  "set returns
success/failure"; `ok` is the answer of the file system.  A successful write
makes a later read of `path` return `val`. -/
def configWriteString (store : List (String × String)) (path val : String) (ok : Bool) :
    Bool × List (String × String) :=
  if ok then (true, (path, val) :: store) else (false, store)

/-- The C library's `tolower` on one character. -/
def tolower (ch : Char) : Char :=
  if 'A' ≤ ch ∧ ch ≤ 'Z' then Char.ofNat (ch.toNat + 32) else ch

/-- The C library's `strcasecmp` on the characters of two strings: zero when
they agree up to letter case, otherwise the difference at the first place
where they disagree. -/
def strcasecmpChars : List Char → List Char → Int
  | [], [] => 0
  | [], b :: _ => 0 - ((tolower b).toNat : Int)
  | a :: _, [] => ((tolower a).toNat : Int)
  | a :: as, b :: bs =>
    if tolower a = tolower b then strcasecmpChars as bs
    else ((tolower a).toNat : Int) - ((tolower b).toNat : Int)

/-- The call `strcasecmp(a, b)`. -/
def strcasecmp (a b : String) : Int :=
  strcasecmpChars a.data b.data

/-- The answers the operating system, libtls and the configuration directory
give during one run of `syn_connect_setup`. -/
structure SetupOracle where
  socket_ret : Int
  connect_ret : Int
  tls_client_ret : Option Nat
  tls_config_new_ok : Bool
  cert_file_exists : Bool
  tls_config_set_cert_file_ret : Int
  tls_configure_ret : Int
  tls_connect_socket_ret : Int
  tls_handshake_ret : Int
  tls_peer_cert_hash_ret : Option String
  configWriteString_ok : Bool
deriving DecidableEq, Repr

/-! ## `net.c` -/

/-- `load_cert_hash` (net.c 24-32). -/
def load_cert_hash (w : World) (host : String) : Option String × World :=
  let path := "tls/hash/" ++ host
  (configTryString w.store path, w.emit (Event.configTryString path))

/-- `store_cert_hash` (net.c 33-42). -/
def store_cert_hash (w : World) (host hash : String) (ok : Bool) : Bool × World :=
  let path := "tls/hash/" ++ host
  let r := configWriteString w.store path hash ok
  (r.1, { store := r.2, trace := w.trace ++ [Event.configWriteString path hash] })

/-- `synNetDisconnect` (net.c 305-323).  `tls_close_ret` is what `tls_close`
answers when it is called. -/
def synNetDisconnect (snet_ctx : synNetContext) (w : World) (tls_close_ret : Int) :
    Outcome Bool :=
  let w := w.emit Event.synNetDisconnect
  if snet_ctx.fd = -1 then ⟨false, snet_ctx, w⟩
  else
    let cw : synNetContext × World :=
      match snet_ctx.tls_ctx with
      | some h =>
        let w1 := w.emit (Event.tls_close h)
        let w2 := if tls_close_ret ≠ 0 then w1.emit (Event.logErr "tls_close error: %s") else w1
        let w3 := w2.emit (Event.tls_free h)
        ((snet_ctx.set_tls_hash none).set_tls_ctx none, w3)
      | none => (snet_ctx, w)
    let c := cw.1
    let w4 := (cw.2.emit (Event.shutdown c.fd)).emit (Event.close c.fd)
    ⟨true, (c.set_fd (-1)).set_m_connected false, w4⟩

/-- The last part of `syn_connect_setup` (net.c 87-124): transport-level
verification switched off, configuration, handshake, then the pinning check.
In the first-use branch `tls_hash` is the copy of `peer_hash` made just
before. -/
def syn_connect_setup_handshake (c : synNetContext) (w : World) (os : SetupOracle) :
    Outcome Bool :=
  let w := (w.emit Event.tls_config_insecure_noverifycert).emit
    Event.tls_config_insecure_noverifyname
  let w := w.emit Event.tls_configure
  if os.tls_configure_ret ≠ 0 then
    ⟨false, c, (w.emit (Event.logErr "Could not configure TLS context: %s")).emit
      Event.tls_config_free⟩
  else
    let w := w.emit Event.tls_config_free
    let w := w.emit (Event.tls_connect_socket c.fd c.host)
    if os.tls_connect_socket_ret ≠ 0 then
      ⟨false, c, w.emit (Event.logErr "tls_connect error: %s")⟩
    else
      let w := w.emit Event.tls_handshake
      if os.tls_handshake_ret ≠ 0 then
        ⟨false, c, w.emit (Event.logErr "tls_handshake error: %s")⟩
      else
        let w := w.emit Event.tls_peer_cert_hash
        match os.tls_peer_cert_hash_ret with
        | none => ⟨false, c, w.emit (Event.logErr "Server provided no certificate")⟩
        | some peer_hash =>
          match c.tls_hash with
          | none =>
            let w := (w.emit Event.tls_peer_cert_hash).emit
              (Event.logInfo "Trust-on-first-use enabled, saving hash %s")
            let c := c.set_tls_hash (some peer_hash)
            let r := store_cert_hash w c.host peer_hash os.configWriteString_ok
            if r.1 = false then
              ⟨false, c, r.2.emit (Event.logErr "Could not save certificate hash")⟩
            else if strcasecmp peer_hash peer_hash ≠ 0 then
              ⟨false, c, r.2.emit (Event.logErr "CERTIFICATE HASH MISMATCH: %s (client) != %s (server)")⟩
            else ⟨true, c, r.2⟩
          | some tls_hash =>
            if strcasecmp tls_hash peer_hash ≠ 0 then
              ⟨false, c, w.emit (Event.logErr "CERTIFICATE HASH MISMATCH: %s (client) != %s (server)")⟩
            else ⟨true, c, w⟩

/-- The client-certificate part of `syn_connect_setup` (net.c 76-86). -/
def syn_connect_setup_cert (c : synNetContext) (w : World) (os : SetupOracle) : Outcome Bool :=
  let w := w.emit (Event.osFileExists "tls/cert")
  if os.cert_file_exists then
    let w := w.emit Event.tls_config_set_cert_file
    if os.tls_config_set_cert_file_ret ≠ 0 then
      ⟨false, c, (w.emit (Event.logErr "Could not load client certificate: %s")).emit
        Event.tls_config_free⟩
    else syn_connect_setup_handshake c w os
  else syn_connect_setup_handshake c w os

/-- `syn_connect_setup` (net.c 44-126): one connection attempt on one
candidate address.  The function is cut in three at lines 76 and 87; the two
later parts are `syn_connect_setup_cert` and `syn_connect_setup_handshake`. -/
def syn_connect_setup (snet_ctx : synNetContext) (w : World) (ai : addrinfo) (os : SetupOracle) :
    Outcome Bool :=
  let c := snet_ctx.set_fd os.socket_ret
  let w := w.emit (Event.socket ai)
  if c.fd = -1 then ⟨false, c, w.emit (Event.logPErr "socket")⟩
  else
    let w := w.emit (Event.connect c.fd ai)
    if os.connect_ret ≠ 0 then ⟨false, c, w.emit (Event.logPErr "connect")⟩
    else if c.tls then
      let c := c.set_tls_ctx os.tls_client_ret
      let w := w.emit Event.tls_client
      if c.tls_ctx = none then
        ⟨false, c, w.emit (Event.logErr "Could not create tls client context")⟩
      else
        let w := w.emit Event.tls_config_new
        if os.tls_config_new_ok = false then
          ⟨false, c, w.emit (Event.logErr "Could not create tls configuration structure")⟩
        else
          let l := load_cert_hash w c.host
          let c := c.set_tls_hash l.1
          if c.tls_hash = none then
            if c.tls_tofu = false then
              ⟨false, c, l.2.emit (Event.logErr "No certificate hash available")⟩
            else syn_connect_setup_cert c l.2 os
          else syn_connect_setup_cert c l.2 os
    else ⟨true, c, w⟩

/-- The value of `EAI_SYSTEM` in the C library's `netdb.h`. -/
def EAI_SYSTEM : Int := -11

/-- The value of `TLS_WANT_POLLIN` in libtls's `tls.h`. -/
def TLS_WANT_POLLIN : Int := -2

/-- The value of `TLS_WANT_POLLOUT` in libtls's `tls.h`. -/
def TLS_WANT_POLLOUT : Int := -3

/-- A reading of the monotonic clock. -/
structure timespec where
  tv_sec : Nat
  tv_nsec : Nat
deriving DecidableEq, Repr

/-- `syn_get_time` (net.c 278-286): milliseconds in a `uint32_t`. -/
def syn_get_time (ts : timespec) : Nat :=
  let ms := (ts.tv_sec * 1000) % 4294967296
  (ms + ts.tv_nsec / 1000000) % 4294967296

/-- One node of the list `getaddrinfo` produced together with the answers the
outside world gives while that node is tried, and the answer of `tls_close`
in the clean-up that follows a failed try. -/
structure Candidate where
  ai : addrinfo
  os : SetupOracle
  tls_close_ret : Int
deriving DecidableEq, Repr

/-- The `for` loop of `syn_connect` (net.c 151-166).  `IDLE` is
`USYNERGY_IDLE_TIMEOUT`, `ts` the clock reading `m_getTimeFunc` sees.  The
value handed back is the variable `ret` when the loop is left. -/
def syn_connect_loop (IDLE : Nat) (ts : timespec) (c : synNetContext) (w : World) :
    List Candidate → Outcome Bool
  | [] => ⟨false, c, w⟩
  | h :: rest =>
    let w1 := w.emit (Event.alarm (IDLE / 1000))
    let r := syn_connect_setup c w1 h.ai h.os
    let w2 := r.world.emit (Event.alarm 0)
    if r.ret then
      ⟨true, r.ctx.set_m_lastMessageTime (syn_get_time ts), w2.emit Event.m_getTimeFunc⟩
    else
      let d := synNetDisconnect r.ctx w2 h.tls_close_ret
      syn_connect_loop IDLE ts d.ctx d.world rest

/-- `syn_connect` (net.c 129-169).  `gai_ret` and `hostinfo` are what
`getaddrinfo` answers, `tls_close_ret` what `tls_close` answers in the
disconnect of line 150. -/
def syn_connect (IDLE : Nat) (snet_ctx : synNetContext) (w : World) (gai_ret : Int)
    (hostinfo : List Candidate) (tls_close_ret : Int) (ts : timespec) : Outcome Bool :=
  let w := w.emit (Event.logInfo "Going to connect to %s at port %s")
  let w := w.emit (Event.getaddrinfo snet_ctx.host snet_ctx.port)
  if gai_ret ≠ 0 then
    if gai_ret = EAI_SYSTEM then
      ⟨false, snet_ctx, w.emit (Event.logPErr "getaddrinfo system error")⟩
    else ⟨false, snet_ctx, w.emit (Event.logErr "getaddrinfo failed: %s")⟩
  else
    let d := synNetDisconnect snet_ctx w tls_close_ret
    let r := syn_connect_loop IDLE ts d.ctx d.world hostinfo
    ⟨r.ret, r.ctx, r.world.emit Event.freeaddrinfo⟩

/-- `tls_write_full` (net.c 170-186).  `answers` are the successive return
values of `tls_write`; `none` means the answers ran out while the loop was
still going.  `pos` is the offset of `buf` from the start of the buffer, `len`
a `size_t`. -/
def tls_write_full : List Int → Int → Nat → World → Option (Bool × World)
  | answers, pos, len, w =>
    if len = 0 then some (true, w)
    else
      match answers with
      | [] => none
      | ret :: rest =>
        let w := w.emit (Event.tls_write pos len ret)
        if ret = TLS_WANT_POLLIN ∨ ret = TLS_WANT_POLLOUT then tls_write_full rest pos len w
        else if ret = -1 then some (false, w.emit (Event.logErr "tls_write failed: %s"))
        else tls_write_full rest (pos + ret) (Int.toNat (((len : Int) - ret) % 18446744073709551616)) w

/-- `syn_send` (net.c 188-194).  `write_full` belongs to another module; its
answer is `write_full_ok`.  The `int` length becomes a `size_t`. -/
def syn_send (snet_ctx : synNetContext) (w : World) (answers : List Int) (len : Int)
    (write_full_ok : Bool) : Option (Bool × World) :=
  match snet_ctx.tls_ctx with
  | some _ => tls_write_full answers 0 (Int.toNat (len % 18446744073709551616)) w
  | none => some (write_full_ok, w.emit (Event.write_full snet_ctx.fd len))

/-- The `do ... while` of `syn_recv` (net.c 258-260): `tls_read` is called
again while it answers `TLS_WANT_POLLIN` or `TLS_WANT_POLLOUT`. -/
def tls_read_loop : List Int → World → Option (Int × World)
  | [], _ => none
  | r :: rest, w =>
    let w := w.emit Event.tls_read
    if r = TLS_WANT_POLLIN ∨ r = TLS_WANT_POLLOUT then tls_read_loop rest w else some (r, w)

/-- `syn_recv` (net.c 253-271).  `answers` are the successive return values of
`tls_read` (or the one return value of `read`); the result carries the
function's return value and `*out_len`. -/
def syn_recv (IDLE : Nat) (snet_ctx : synNetContext) (w : World) (answers : List Int) :
    Option (Outcome (Bool × Int)) :=
  let w := w.emit (Event.alarm (IDLE / 1000))
  let rd : Option (Int × World) :=
    match snet_ctx.tls_ctx with
    | some _ => tls_read_loop answers w
    | none =>
      match answers with
      | [] => none
      | r :: _ => some (r, w.emit (Event.read snet_ctx.fd))
  match rd with
  | none => none
  | some (out_len, w) =>
    let w := w.emit (Event.alarm 0)
    if out_len < 1 then
      some ⟨(false, out_len),
        snet_ctx.set_m_lastError uSynergyError.USYNERGY_ERROR_TIMEOUT,
        w.emit (Event.logErr "Synergy receive timed out")⟩
    else some ⟨(true, out_len), snet_ctx, w⟩

/-- `synNetInit` (net.c 288-303).  The callback bindings are the Lean
functions of the same names; only the fields the function assigns change. -/
def synNetInit (snet_ctx : synNetContext) (context : uSynergyContext) (host port : String)
    (tls tofu : Bool) : Bool × synNetContext :=
  (true, { snet_ctx with host := host, port := port, syn_ctx := context, fd := -1, tls := tls,
                          tls_tofu := tofu })

/-- What `netPoll` carries round its loop: the session context, the world, and
the `POLLOUT` bit of `netPollFd[POLLFD_WL].events`. -/
structure PollState where
  snet : synNetContext
  world : World
  wl_pollout : Bool

/-- Modelled from the spec: what the collaborators outside `net.c` do during
one trip round the loop of `netPoll`.  `poll_ret`, `syn_pollin` and
`wl_revents` are what `poll` reports, `ts` is the clock, `tls_close_ret` the
answer of `tls_close`, `flush_pending` the display's flag after `wlPollProc`.
`update` is what one step of the protocol engine (`uSynergyUpdate`, which calls
back into connect, send and receive) does to the session context and the
configuration; it is not constrained.  `sigHandleRun`, `wlPollProc` and
`clipMonitorPollProc` are recorded as calls and leave the session context
alone. -/
structure PollAnswer where
  poll_ret : Int
  syn_pollin : Bool
  wl_revents : Int
  update : synNetContext → List (String × String) → synNetContext × List (String × String)
  ts : timespec
  tls_close_ret : Int
  flush_pending : Bool

/-- How one trip round the loop ends: `netPoll` returns, or the loop goes on. -/
inductive LoopStep where
  | returned (s : PollState)
  | again (s : PollState)

/-- The `for` loop over the clipboard updater slots (net.c 237-240): `n` slots
starting at slot `i`. -/
def clipUpdaterLoop (w : World) (i : Nat) : Nat → World
  | 0 => w
  | n + 1 =>
    clipUpdaterLoop ((w.emit (Event.clipMonitorPollProc i)).emit Event.sigHandleRun) (i + 1) n

/-- The body of the `while` loop of `netPoll` (net.c 216-242).  `IDLE` is
`USYNERGY_IDLE_TIMEOUT`; `CLIP_MON`, `CLIP_UPDATER` and `COUNT` are
`POLLFD_CLIP_MON`, `POLLFD_CLIP_UPDATER` and `POLLFD_COUNT`. -/
def netPoll_body (IDLE CLIP_MON CLIP_UPDATER COUNT : Nat) (a : PollAnswer) (s : PollState) :
    LoopStep :=
  let w := s.world.emit Event.sigHandleRun
  let cw : synNetContext × World :=
    if a.syn_pollin then
      ((a.update s.snet w.store).1,
        (w.setStore (a.update s.snet w.store).2).emit Event.uSynergyUpdate)
    else (s.snet, w)
  let c := cw.1
  let w := cw.2.emit Event.m_getTimeFunc
  if Int.toNat (((syn_get_time a.ts : Int) - (c.syn_ctx.m_lastMessageTime : Int)) % 4294967296)
      > IDLE % 4294967296 then
    let w := w.emit (Event.logErr "Synergy timeout encountered -- disconnecting")
    let d := synNetDisconnect c w a.tls_close_ret
    LoopStep.returned ⟨d.ctx, d.world, s.wl_pollout⟩
  else
    let w := w.emit Event.sigHandleRun
    if c.syn_ctx.m_connected then
      let w := w.emit (Event.wlPollProc a.wl_revents)
      let w := w.emit Event.sigHandleRun
      let w := w.emit (Event.clipMonitorPollProc CLIP_MON)
      let w := w.emit Event.sigHandleRun
      let w := clipUpdaterLoop w CLIP_UPDATER (COUNT - CLIP_UPDATER)
      LoopStep.again ⟨c, w, a.flush_pending⟩
    else LoopStep.again ⟨c, w, s.wl_pollout⟩

/-- The `while` loop of `netPoll` with what follows it (net.c 215-248).
`none` means the answers ran out while the loop was still going. -/
def netPoll_loop (IDLE CLIP_MON CLIP_UPDATER COUNT : Nat) :
    List PollAnswer → PollState → Option PollState
  | [], _ => none
  | a :: rest, s =>
    let nfd := if s.snet.syn_ctx.m_connected then COUNT else 1
    let w := s.world.emit (Event.poll nfd)
    if a.poll_ret > 0 then
      match netPoll_body IDLE CLIP_MON CLIP_UPDATER COUNT a ⟨s.snet, w, s.wl_pollout⟩ with
      | LoopStep.returned s1 => some s1
      | LoopStep.again s1 => netPoll_loop IDLE CLIP_MON CLIP_UPDATER COUNT rest s1
    else if a.poll_ret = 0 then
      let w := w.emit (Event.logErr "Poll timeout encountered -- disconnecting synergy")
      let d := synNetDisconnect s.snet w a.tls_close_ret
      some ⟨d.ctx, d.world.emit Event.sigHandleRun, s.wl_pollout⟩
    else some ⟨s.snet, w.emit Event.sigHandleRun, s.wl_pollout⟩

/-- `netPoll` (net.c 203-249). -/
def netPoll (IDLE CLIP_MON CLIP_UPDATER COUNT : Nat) (snet_ctx : synNetContext) (w : World)
    (wl_pollout : Bool) (answers : List PollAnswer) : Option PollState :=
  let w :=
    if snet_ctx.fd = -1 then w.emit (Event.logErr "INVALID FILE DESCRIPTOR for synergy context")
    else w
  let w := w.emit Event.wlPrepareFd
  netPoll_loop IDLE CLIP_MON CLIP_UPDATER COUNT answers ⟨snet_ctx, w, wl_pollout⟩

/-! ## Vocabulary of the statements -/

/-- The two calls that attempt the secure handshake. -/
def Event.isHandshakeCall : Event → Bool
  | Event.tls_connect_socket _ _ => true
  | Event.tls_handshake => true
  | _ => false

/-- The world `w2` is `w1` with further calls appended, each of them
satisfying `P`. -/
def Extends (P : Event → Prop) (w1 w2 : World) : Prop :=
  ∃ evs, w2.trace = w1.trace ++ evs ∧ ∀ ev ∈ evs, P ev

/-! ## Concrete sessions used to exercise the statements -/

/-- An engine that is not connected. -/
def engine0 : uSynergyContext :=
  { m_connected := false, m_lastMessageTime := 0,
    m_lastError := uSynergyError.USYNERGY_ERROR_NONE }

/-- A secure session for `example.com` with trust-on-first-use, disconnected. -/
def ctxTofu : synNetContext :=
  { host := "example.com", port := "24800", fd := -1, tls := true, tls_tofu := true,
    tls_ctx := none, tls_hash := none, syn_ctx := engine0 }

/-- A secure session for `example.com` without trust-on-first-use, disconnected. -/
def ctxStrict : synNetContext :=
  { host := "example.com", port := "24800", fd := -1, tls := true, tls_tofu := false,
    tls_ctx := none, tls_hash := none, syn_ctx := engine0 }

/-- A secure session for `example.com` that is connected on descriptor 5. -/
def ctxOpen : synNetContext :=
  { host := "example.com", port := "24800", fd := 5, tls := true, tls_tofu := true,
    tls_ctx := some 1, tls_hash := some "AA:BB",
    syn_ctx := { m_connected := true, m_lastMessageTime := 0,
                 m_lastError := uSynergyError.USYNERGY_ERROR_NONE } }

/-- A world with an empty trust store. -/
def worldEmpty : World := { store := [], trace := [] }

/-- A world whose trust store pins `AA:BB` for `example.com`. -/
def worldPinned : World := { store := [("tls/hash/example.com", "AA:BB")], trace := [] }

/-- An IPv4 stream address. -/
def ai4 : addrinfo := { ai_family := 2, ai_socktype := 1, ai_protocol := 6, ai_addr := 1 }

/-- Every step succeeds and the peer presents `AA:BB`. -/
def osGood : SetupOracle :=
  { socket_ret := 7, connect_ret := 0, tls_client_ret := some 2, tls_config_new_ok := true,
    cert_file_exists := false, tls_config_set_cert_file_ret := 0, tls_configure_ret := 0,
    tls_connect_socket_ret := 0, tls_handshake_ret := 0,
    tls_peer_cert_hash_ret := some "AA:BB", configWriteString_ok := true }

/-- Every step succeeds and the peer presents `CC:DD`. -/
def osOther : SetupOracle :=
  { osGood with tls_peer_cert_hash_ret := some "CC:DD" }

/-- The connect call is refused. -/
def osRefused : SetupOracle :=
  { osGood with socket_ret := 6, connect_ret := -1 }

/-- The fully disconnected state: no socket, no TLS handle, no pinned
fingerprint. -/
def FullyDisconnected (c : synNetContext) : Prop :=
  c.fd = -1 ∧ c.tls_ctx = none ∧ c.tls_hash = none

/-- Modelled from the spec: the session context object before `synNetInit`
runs.  The object is defined outside `net.c` (not among the sources) and
`synNetInit` assigns neither `tls_ctx` nor `tls_hash`; the spec's data model has
the secure channel "present only when a secure session is active", so the
object starts with no TLS handle and no pinned fingerprint. -/
def InitialObject (c0 : synNetContext) : Prop :=
  c0.tls_ctx = none ∧ c0.tls_hash = none

/-- The session contexts the program can be in: `synNetInit` fills in the
initial object, and from then on the context is changed only by
`synNetDisconnect`, by `syn_connect_setup` (which `syn_connect` runs only on a
context it has just put through `synNetDisconnect`, whether the attempt then
succeeds or fails at any step), and by the engine writing its own fields. -/
inductive Reachable : synNetContext → Prop where
  | init (c0 : synNetContext) (context : uSynergyContext) (host port : String)
      (tls tofu : Bool) (h0 : InitialObject c0) :
      Reachable (synNetInit c0 context host port tls tofu).2
  | disconnect (c : synNetContext) (w : World) (r : Int) :
      Reachable c → Reachable (synNetDisconnect c w r).ctx
  | setup (c : synNetContext) (w w1 : World) (r : Int) (ai : addrinfo) (os : SetupOracle) :
      Reachable c → Reachable (syn_connect_setup (synNetDisconnect c w r).ctx w1 ai os).ctx
  | engine (c : synNetContext) (e : uSynergyContext) :
      Reachable c → Reachable { c with syn_ctx := e }

/-- A plain (non-TLS) session for `example.com` that is connected on
descriptor 5. -/
def ctxPlainOpen : synNetContext :=
  { host := "example.com", port := "24800", fd := 5, tls := false, tls_tofu := false,
    tls_ctx := none, tls_hash := none,
    syn_ctx := { m_connected := true, m_lastMessageTime := 0,
                 m_lastError := uSynergyError.USYNERGY_ERROR_NONE } }

/-- One call of `tls_write`: the offset and length it was given and the
value it returned. -/
abbrev WriteCall := Int × Nat × Int

/-- The bytes accepted by a sequence of `tls_write` calls: the sum of the
positive return values. -/
def written (calls : List WriteCall) : Int :=
  (calls.map (fun k => if 0 < k.2.2 then k.2.2 else 0)).sum

/-- The record of a sequence of `tls_write` calls. -/
def tlsWriteEvents (calls : List WriteCall) : List Event :=
  calls.map (fun k => Event.tls_write k.1 k.2.1 k.2.2)

/-- What libtls documents for the return value of `tls_write`: -1, one of the
two retry values, or a byte count between 0 and the length asked for. -/
def answerAllowed (k : WriteCall) : Prop :=
  k.2.2 = -1 ∨ k.2.2 = TLS_WANT_POLLIN ∨ k.2.2 = TLS_WANT_POLLOUT ∨
    (0 ≤ k.2.2 ∧ k.2.2 ≤ (k.2.1 : Int))

/-- The calls that dispatch display or clipboard events. -/
def Event.isDispatch : Event → Bool
  | Event.wlPollProc _ => true
  | Event.clipMonitorPollProc _ => true
  | _ => false

/-- The state a trip round the loop ends in. -/
def LoopStep.state : LoopStep → PollState
  | LoopStep.returned s => s
  | LoopStep.again s => s

/-- The session context after the network step of a trip round the loop of
`netPoll` (net.c 217-219): the engine has been stepped when the network slot
reported `POLLIN`. -/
def afterNetworkStep (a : PollAnswer) (s : PollState) : synNetContext :=
  if a.syn_pollin then (a.update s.snet s.world.store).1 else s.snet

/-- The loop of `netPoll` goes round once for each of the given answers and is
then about to call `poll` again in the state handed back; `none` when it
leaves the loop earlier. -/
def loopRounds (IDLE CLIP_MON CLIP_UPDATER COUNT : Nat) :
    List PollAnswer → PollState → Option PollState
  | [], s => some s
  | a :: rest, s =>
    if a.poll_ret > 0 then
      match netPoll_body IDLE CLIP_MON CLIP_UPDATER COUNT a
          ⟨s.snet, s.world.emit
            (Event.poll (if s.snet.syn_ctx.m_connected then COUNT else 1)), s.wl_pollout⟩ with
      | LoopStep.returned _ => none
      | LoopStep.again s1 => loopRounds IDLE CLIP_MON CLIP_UPDATER COUNT rest s1
    else none

/-- An answer of the outside world in which the network slot is ready, the
engine step changes nothing and the clock reads 5000 ms. -/
def answerLate : PollAnswer :=
  { poll_ret := 1, syn_pollin := true, wl_revents := 1,
    update := fun c st => (c, st), ts := ⟨5, 0⟩, tls_close_ret := 0, flush_pending := false }

/-- An answer of the outside world in which `poll` timed out. -/
def answerPollTimeout : PollAnswer :=
  { answerLate with poll_ret := 0 }

/-- The state in which `netPoll` enters its loop (net.c 207-214). -/
def netPoll_entry (snet_ctx : synNetContext) (w : World) (wl_pollout : Bool) : PollState :=
  ⟨snet_ctx,
    (if snet_ctx.fd = -1 then
      w.emit (Event.logErr "INVALID FILE DESCRIPTOR for synergy context")
     else w).emit Event.wlPrepareFd,
    wl_pollout⟩

/-- The state in which `syn_connect` enters its candidate loop after a
successful resolution (net.c 136-150). -/
def connectEntry (snet_ctx : synNetContext) (w : World) (tls_close_ret : Int) : Outcome Bool :=
  synNetDisconnect snet_ctx
    ((w.emit (Event.logInfo "Going to connect to %s at port %s")).emit
      (Event.getaddrinfo snet_ctx.host snet_ctx.port)) tls_close_ret

/-- The context and world after each of the given candidates has been tried
with `syn_connect_setup` and cleaned up with `synNetDisconnect`, in order. -/
def afterFailures (IDLE : Nat) (c : synNetContext) (w : World) :
    List Candidate → synNetContext × World
  | [] => (c, w)
  | h :: rest =>
    let r := syn_connect_setup c (w.emit (Event.alarm (IDLE / 1000))) h.ai h.os
    let d := synNetDisconnect r.ctx (r.world.emit (Event.alarm 0)) h.tls_close_ret
    afterFailures IDLE d.ctx d.world rest

/-- Every one of the given candidates, tried in order from the given state
with the clean-up in between, makes `syn_connect_setup` return false. -/
def allFail (IDLE : Nat) (c : synNetContext) (w : World) : List Candidate → Bool
  | [] => true
  | h :: rest =>
    let r := syn_connect_setup c (w.emit (Event.alarm (IDLE / 1000))) h.ai h.os
    let d := synNetDisconnect r.ctx (r.world.emit (Event.alarm 0)) h.tls_close_ret
    !r.ret && allFail IDLE d.ctx d.world rest

/-- The calls that mark an attempt and its clean-up: `socket`, the first call
of `syn_connect_setup`, and the entry into `synNetDisconnect`. -/
def Event.isAttemptMark : Event → Bool
  | Event.socket _ => true
  | Event.synNetDisconnect => true
  | _ => false

/-- The attempt marks of a record, in order. -/
def attemptMarks (evs : List Event) : List Event :=
  evs.filter Event.isAttemptMark

/-- The attempt marks of candidates that were each tried and cleaned up. -/
def failedMarks : List Candidate → List Event
  | [] => []
  | h :: rest => Event.socket h.ai :: Event.synNetDisconnect :: failedMarks rest

/-- A candidate whose connect call is refused. -/
def candRefused : Candidate := { ai := ai4, os := osRefused, tls_close_ret := 0 }

/-- An IPv6 stream address. -/
def ai6 : addrinfo := { ai_family := 10, ai_socktype := 1, ai_protocol := 6, ai_addr := 2 }

/-- A candidate on which every step succeeds. -/
def candGood : Candidate := { ai := ai6, os := osGood, tls_close_ret := 0 }

/-- The trust-on-first-use session for `example.com` as `synNetInit` leaves it. -/
def ctxInit : synNetContext :=
  (synNetInit ctxTofu engine0 "example.com" "24800" true true).2

/-! ## Basic facts -/

@[simp]
theorem World.emit_trace (w : World) (ev : Event) :
    (w.emit ev).trace = w.trace ++ [ev] := rfl

@[simp]
theorem World.setStore_trace (w : World) (st : List (String × String)) :
    (w.setStore st).trace = w.trace := rfl

@[simp]
theorem World.setStore_store (w : World) (st : List (String × String)) :
    (w.setStore st).store = st := rfl

@[simp]
theorem World.emit_store (w : World) (ev : Event) :
    (w.emit ev).store = w.store := rfl

theorem strcasecmpChars_self (l : List Char) : strcasecmpChars l l = 0 := by
  induction l with
  | nil => rfl
  | cons a as ih => simp [strcasecmpChars, ih]

theorem strcasecmp_self (a : String) : strcasecmp a a = 0 :=
  strcasecmpChars_self a.data

theorem Extends.refl (P : Event → Prop) (w : World) : Extends P w w :=
  ⟨[], by simp, by simp⟩

theorem Extends.trans {P : Event → Prop} {w1 w2 w3 : World} (h12 : Extends P w1 w2)
    (h23 : Extends P w2 w3) : Extends P w1 w3 := by
  obtain ⟨e1, t1, p1⟩ := h12
  obtain ⟨e2, t2, p2⟩ := h23
  refine ⟨e1 ++ e2, by rw [t2, t1, List.append_assoc], ?_⟩
  intro ev hev
  rcases List.mem_append.mp hev with h | h
  · exact p1 ev h
  · exact p2 ev h

theorem Extends.emit {P : Event → Prop} (w : World) (ev : Event) (h : P ev) :
    Extends P w (w.emit ev) :=
  ⟨[ev], rfl, by simpa using h⟩

theorem Extends.mono {P Q : Event → Prop} {w1 w2 : World} (hPQ : ∀ ev, P ev → Q ev)
    (h : Extends P w1 w2) : Extends Q w1 w2 := by
  obtain ⟨e, t, p⟩ := h
  exact ⟨e, t, fun ev hev => hPQ ev (p ev hev)⟩

/-- What `synNetDisconnect` leaves alone, and which calls it makes. -/
theorem synNetDisconnect_frame (c : synNetContext) (w : World) (r : Int) :
    (synNetDisconnect c w r).ctx.host = c.host ∧
    (synNetDisconnect c w r).ctx.port = c.port ∧
    (synNetDisconnect c w r).ctx.tls = c.tls ∧
    (synNetDisconnect c w r).ctx.tls_tofu = c.tls_tofu ∧
    (synNetDisconnect c w r).world.store = w.store ∧
    Extends (fun ev => ev = Event.synNetDisconnect ∨ (∃ h, ev = Event.tls_close h) ∨
        (∃ h, ev = Event.tls_free h) ∨ (∃ m, ev = Event.logErr m) ∨
        (∃ fd, ev = Event.shutdown fd) ∨ (∃ fd, ev = Event.close fd))
      w (synNetDisconnect c w r).world := by
  by_cases h1 : c.fd = -1
  · simp [synNetDisconnect, h1, Extends]
  cases h2 : c.tls_ctx with
  | none => simp [synNetDisconnect, h1, h2, Extends]
  | some t => by_cases h3 : r = 0 <;> simp [synNetDisconnect, h1, h2, h3, Extends]

/-- C1. Trust monotonicity: in secure mode, when the trust store holds `h` under
`tls/hash/<host>` and the peer presents a fingerprint `p` that differs from `h`
under `strcasecmp`, `syn_connect_setup` returns failure, makes no
`configWriteString` call, and leaves the store (hence the pinned `h`) as it
was, whatever the trust-on-first-use flag and the other answers are. -/
theorem trust_monotonicity (c : synNetContext) (w : World) (ai : addrinfo) (os : SetupOracle)
    (h p : String) (htls : c.tls = true)
    (hstore : configTryString w.store ("tls/hash/" ++ c.host) = some h)
    (hpeer : os.tls_peer_cert_hash_ret = some p)
    (hdiff : strcasecmp h p ≠ 0) :
    (syn_connect_setup c w ai os).ret = false ∧
    (∃ evs, (syn_connect_setup c w ai os).world.trace = w.trace ++ evs ∧
      ∀ path val, Event.configWriteString path val ∉ evs) ∧
    (syn_connect_setup c w ai os).world.store = w.store ∧
    configTryString (syn_connect_setup c w ai os).world.store ("tls/hash/" ++ c.host) = some h := by
  by_cases h1 : os.socket_ret = -1
  · simp [syn_connect_setup, h1, hstore]
  by_cases h2 : os.connect_ret = 0
  swap
  · simp [syn_connect_setup, h1, h2, hstore]
  cases h3 : os.tls_client_ret with
  | none => simp [syn_connect_setup, h1, h2, h3, htls, hstore]
  | some tc =>
    by_cases h4 : os.tls_config_new_ok = false
    · simp [syn_connect_setup, h1, h2, h3, h4, htls, hstore]
    by_cases h5 : os.cert_file_exists = true <;>
    by_cases h5a : os.tls_config_set_cert_file_ret = 0 <;>
    by_cases h6 : os.tls_configure_ret = 0 <;>
    by_cases h7 : os.tls_connect_socket_ret = 0 <;>
    by_cases h8 : os.tls_handshake_ret = 0 <;>
    simp [syn_connect_setup, syn_connect_setup_cert, syn_connect_setup_handshake,
      load_cert_hash, h1, h2, h3, h4, h5, h5a, h6, h7, h8, htls, hstore, hpeer, hdiff]

/-- In secure mode without trust-on-first-use and without a stored hash, one
attempt fails before the handshake and changes neither flags nor store. -/
theorem syn_connect_setup_fail_closed (c : synNetContext) (w : World) (ai : addrinfo)
    (os : SetupOracle) (htls : c.tls = true) (htofu : c.tls_tofu = false)
    (hstore : configTryString w.store ("tls/hash/" ++ c.host) = none) :
    (syn_connect_setup c w ai os).ret = false ∧
    (syn_connect_setup c w ai os).ctx.host = c.host ∧
    (syn_connect_setup c w ai os).ctx.tls = c.tls ∧
    (syn_connect_setup c w ai os).ctx.tls_tofu = c.tls_tofu ∧
    (syn_connect_setup c w ai os).world.store = w.store ∧
    Extends (fun ev => ev.isHandshakeCall = false) w (syn_connect_setup c w ai os).world := by
  by_cases h1 : os.socket_ret = -1
  · simp [syn_connect_setup, h1, Extends, Event.isHandshakeCall]
  by_cases h2 : os.connect_ret = 0
  swap
  · simp [syn_connect_setup, h1, h2, Extends, Event.isHandshakeCall]
  cases h3 : os.tls_client_ret with
  | none => simp [syn_connect_setup, h1, h2, h3, htls, Extends, Event.isHandshakeCall]
  | some tc =>
    by_cases h4 : os.tls_config_new_ok = false <;>
    simp [syn_connect_setup, load_cert_hash, h1, h2, h3, h4, htls, htofu, hstore, Extends,
      Event.isHandshakeCall]

/-- The loop of `syn_connect` under the conditions of
`syn_connect_setup_fail_closed`: every candidate fails, no handshake call. -/
theorem syn_connect_loop_fail_closed (IDLE : Nat) (ts : timespec) (hostinfo : List Candidate) :
    ∀ (c : synNetContext) (w : World), c.tls = true → c.tls_tofu = false →
      configTryString w.store ("tls/hash/" ++ c.host) = none →
      (syn_connect_loop IDLE ts c w hostinfo).ret = false ∧
      Extends (fun ev => ev.isHandshakeCall = false) w
        (syn_connect_loop IDLE ts c w hostinfo).world := by
  induction hostinfo with
  | nil => intro c w _ _ _; exact ⟨rfl, Extends.refl _ _⟩
  | cons h rest ih =>
    intro c w htls htofu hstore
    obtain ⟨s1, s2, s3, s4, s5, s6⟩ := syn_connect_setup_fail_closed c
      (w.emit (Event.alarm (IDLE / 1000))) h.ai h.os htls htofu (by simpa using hstore)
    obtain ⟨d1, _, d3, d4, d5, d6⟩ := synNetDisconnect_frame
      (syn_connect_setup c (w.emit (Event.alarm (IDLE / 1000))) h.ai h.os).ctx
      ((syn_connect_setup c (w.emit (Event.alarm (IDLE / 1000))) h.ai h.os).world.emit
        (Event.alarm 0)) h.tls_close_ret
    have key := ih _ _ (d3.trans (s3.trans htls)) (d4.trans (s4.trans htofu))
      (by rw [d5, d1, s2]; simpa [s5] using hstore)
    simp only [syn_connect_loop, s1, Bool.false_eq_true, if_false]
    refine ⟨key.1, ?_⟩
    refine Extends.trans (Extends.emit w (Event.alarm (IDLE / 1000)) rfl) ?_
    refine Extends.trans s6 ?_
    refine Extends.trans (Extends.emit _ (Event.alarm 0) rfl) ?_
    refine Extends.trans (Extends.mono ?_ d6) key.2
    intro ev hev
    rcases hev with h | ⟨_, h⟩ | ⟨_, h⟩ | ⟨_, h⟩ | ⟨_, h⟩ | ⟨_, h⟩ <;> subst h <;> rfl

/-- C2. Fail-closed on missing trust: in secure mode with trust-on-first-use
disabled and no stored fingerprint for the host, `syn_connect_setup` returns
failure on every candidate without calling `tls_connect_socket` or
`tls_handshake`, and `syn_connect` returns failure for every answer of
`getaddrinfo` and every candidate list, again without any such call. -/
theorem fail_closed_missing_trust (IDLE : Nat) (c : synNetContext) (w : World)
    (htls : c.tls = true) (htofu : c.tls_tofu = false)
    (hstore : configTryString w.store ("tls/hash/" ++ c.host) = none) :
    (∀ (ai : addrinfo) (os : SetupOracle),
      (syn_connect_setup c w ai os).ret = false ∧
      ∃ evs, (syn_connect_setup c w ai os).world.trace = w.trace ++ evs ∧
        ∀ ev ∈ evs, ev.isHandshakeCall = false) ∧
    (∀ (gai_ret : Int) (hostinfo : List Candidate) (tls_close_ret : Int) (ts : timespec),
      (syn_connect IDLE c w gai_ret hostinfo tls_close_ret ts).ret = false ∧
      ∃ evs, (syn_connect IDLE c w gai_ret hostinfo tls_close_ret ts).world.trace
          = w.trace ++ evs ∧
        ∀ ev ∈ evs, ev.isHandshakeCall = false) := by
  constructor
  · intro ai os
    obtain ⟨s1, _, _, _, _, s6⟩ := syn_connect_setup_fail_closed c w ai os htls htofu hstore
    exact ⟨s1, s6⟩
  · intro gai_ret hostinfo r0 ts
    by_cases hg : gai_ret = 0
    swap
    · by_cases hs : gai_ret = -11 <;>
        simp [syn_connect, hg, hs, Event.isHandshakeCall, EAI_SYSTEM]
    obtain ⟨d1, _, d3, d4, d5, d6⟩ := synNetDisconnect_frame c
      ((w.emit (Event.logInfo "Going to connect to %s at port %s")).emit
        (Event.getaddrinfo c.host c.port)) r0
    have key := syn_connect_loop_fail_closed IDLE ts hostinfo _ _ (d3.trans htls)
      (d4.trans htofu) (by rw [d5, d1]; simpa using hstore)
    simp only [syn_connect, hg, ne_eq, not_true_eq_false, if_false]
    refine ⟨key.1, ?_⟩
    have e1 : Extends (fun ev => ev.isHandshakeCall = false) w
        ((w.emit (Event.logInfo "Going to connect to %s at port %s")).emit
          (Event.getaddrinfo c.host c.port)) :=
      Extends.trans (Extends.emit w (Event.logInfo "Going to connect to %s at port %s") rfl)
        (Extends.emit _ (Event.getaddrinfo c.host c.port) rfl)
    have e2 : Extends (fun ev => ev.isHandshakeCall = false) _ _ := Extends.mono (by
      intro ev hev
      rcases hev with h | ⟨_, h⟩ | ⟨_, h⟩ | ⟨_, h⟩ | ⟨_, h⟩ | ⟨_, h⟩ <;> subst h <;> rfl) d6
    exact Extends.trans e1 (Extends.trans e2 (Extends.trans key.2
      (Extends.emit _ Event.freeaddrinfo rfl)))

/-- The statement `trust_monotonicity` at `example.com` pinned to `AA:BB` with a
peer presenting `CC:DD`. -/
theorem trust_monotonicity_witness :
    (syn_connect_setup ctxTofu worldPinned ai4 osOther).ret = false ∧
    (∃ evs, (syn_connect_setup ctxTofu worldPinned ai4 osOther).world.trace
        = worldPinned.trace ++ evs ∧
      ∀ path val, Event.configWriteString path val ∉ evs) ∧
    (syn_connect_setup ctxTofu worldPinned ai4 osOther).world.store = worldPinned.store ∧
    configTryString (syn_connect_setup ctxTofu worldPinned ai4 osOther).world.store
      ("tls/hash/" ++ ctxTofu.host) = some "AA:BB" :=
  trust_monotonicity ctxTofu worldPinned ai4 osOther "AA:BB" "CC:DD" (by decide) (by decide)
    (by decide) (by decide)

/-- The statement `fail_closed_missing_trust` at a strict session with an empty
trust store. -/
theorem fail_closed_missing_trust_witness :
    (∀ (ai : addrinfo) (os : SetupOracle),
      (syn_connect_setup ctxStrict worldEmpty ai os).ret = false ∧
      ∃ evs, (syn_connect_setup ctxStrict worldEmpty ai os).world.trace
          = worldEmpty.trace ++ evs ∧
        ∀ ev ∈ evs, ev.isHandshakeCall = false) ∧
    (∀ (gai_ret : Int) (hostinfo : List Candidate) (tls_close_ret : Int) (ts : timespec),
      (syn_connect 2000 ctxStrict worldEmpty gai_ret hostinfo tls_close_ret ts).ret = false ∧
      ∃ evs, (syn_connect 2000 ctxStrict worldEmpty gai_ret hostinfo tls_close_ret ts).world.trace
          = worldEmpty.trace ++ evs ∧
        ∀ ev ∈ evs, ev.isHandshakeCall = false) :=
  fail_closed_missing_trust 2000 ctxStrict worldEmpty (by decide) (by decide) (by decide)

/-- C3. Trust-on-first-use adoption: in secure mode with trust-on-first-use
enabled and no stored fingerprint, when every step up to and including the
handshake succeeds and the peer presents `p`, `syn_connect_setup` asks the
store to write `p` under `tls/hash/<host>` and returns success exactly when
that write succeeds; on success the session's `tls_hash` is `p` and the store
maps the host to `p`; when the write fails the attempt fails and the store is
as before. -/
theorem tofu_adoption (c : synNetContext) (w : World) (ai : addrinfo) (os : SetupOracle)
    (p : String) (htls : c.tls = true) (htofu : c.tls_tofu = true)
    (hstore : configTryString w.store ("tls/hash/" ++ c.host) = none)
    (hsock : os.socket_ret ≠ -1) (hconn : os.connect_ret = 0)
    (hcli : os.tls_client_ret ≠ none) (hcfg : os.tls_config_new_ok = true)
    (hcert : os.cert_file_exists = true → os.tls_config_set_cert_file_ret = 0)
    (hconf : os.tls_configure_ret = 0) (hcs : os.tls_connect_socket_ret = 0)
    (hhs : os.tls_handshake_ret = 0) (hpeer : os.tls_peer_cert_hash_ret = some p) :
    ((syn_connect_setup c w ai os).ret = true ↔ os.configWriteString_ok = true) ∧
    (∃ pre post, (syn_connect_setup c w ai os).world.trace
        = w.trace ++ pre ++ Event.configWriteString ("tls/hash/" ++ c.host) p :: post ∧
      Event.tls_handshake ∈ pre) ∧
    ((syn_connect_setup c w ai os).ret = true →
      (syn_connect_setup c w ai os).ctx.tls_hash = some p ∧
      (syn_connect_setup c w ai os).ctx.fd = os.socket_ret ∧
      (syn_connect_setup c w ai os).ctx.tls_ctx = os.tls_client_ret ∧
      configTryString (syn_connect_setup c w ai os).world.store ("tls/hash/" ++ c.host)
        = some p) ∧
    (os.configWriteString_ok = false →
      (syn_connect_setup c w ai os).ret = false ∧
      (syn_connect_setup c w ai os).world.store = w.store) := by
  cases h3 : os.tls_client_ret with
  | none => exact absurd h3 hcli
  | some tc =>
    by_cases h5 : os.cert_file_exists = true
    · have h5a := hcert h5
      by_cases h9 : os.configWriteString_ok = true
      · simp [syn_connect_setup, syn_connect_setup_cert, syn_connect_setup_handshake,
          load_cert_hash, store_cert_hash, configWriteString, configTryString, strcasecmp_self,
          hsock, hconn, h3, hcfg, h5, h5a, hconf, hcs, hhs, htls, htofu, hstore, hpeer, h9]
        exact ⟨[Event.socket ai, Event.connect os.socket_ret ai, Event.tls_client,
          Event.tls_config_new, Event.configTryString ("tls/hash/" ++ c.host),
          Event.osFileExists "tls/cert", Event.tls_config_set_cert_file,
          Event.tls_config_insecure_noverifycert, Event.tls_config_insecure_noverifyname,
          Event.tls_configure, Event.tls_config_free,
          Event.tls_connect_socket os.socket_ret c.host, Event.tls_handshake,
          Event.tls_peer_cert_hash, Event.tls_peer_cert_hash,
          Event.logInfo "Trust-on-first-use enabled, saving hash %s"], ⟨[], by simp⟩, by simp⟩
      · simp [syn_connect_setup, syn_connect_setup_cert, syn_connect_setup_handshake,
          load_cert_hash, store_cert_hash, configWriteString, configTryString, strcasecmp_self,
          hsock, hconn, h3, hcfg, h5, h5a, hconf, hcs, hhs, htls, htofu, hstore, hpeer, h9]
        exact ⟨[Event.socket ai, Event.connect os.socket_ret ai, Event.tls_client,
          Event.tls_config_new, Event.configTryString ("tls/hash/" ++ c.host),
          Event.osFileExists "tls/cert", Event.tls_config_set_cert_file,
          Event.tls_config_insecure_noverifycert, Event.tls_config_insecure_noverifyname,
          Event.tls_configure, Event.tls_config_free,
          Event.tls_connect_socket os.socket_ret c.host, Event.tls_handshake,
          Event.tls_peer_cert_hash, Event.tls_peer_cert_hash,
          Event.logInfo "Trust-on-first-use enabled, saving hash %s"],
          ⟨[Event.logErr "Could not save certificate hash"], by simp⟩, by simp⟩
    · by_cases h9 : os.configWriteString_ok = true
      · simp [syn_connect_setup, syn_connect_setup_cert, syn_connect_setup_handshake,
          load_cert_hash, store_cert_hash, configWriteString, configTryString, strcasecmp_self,
          hsock, hconn, h3, hcfg, h5, hconf, hcs, hhs, htls, htofu, hstore, hpeer, h9]
        exact ⟨[Event.socket ai, Event.connect os.socket_ret ai, Event.tls_client,
          Event.tls_config_new, Event.configTryString ("tls/hash/" ++ c.host),
          Event.osFileExists "tls/cert",
          Event.tls_config_insecure_noverifycert, Event.tls_config_insecure_noverifyname,
          Event.tls_configure, Event.tls_config_free,
          Event.tls_connect_socket os.socket_ret c.host, Event.tls_handshake,
          Event.tls_peer_cert_hash, Event.tls_peer_cert_hash,
          Event.logInfo "Trust-on-first-use enabled, saving hash %s"], ⟨[], by simp⟩, by simp⟩
      · simp [syn_connect_setup, syn_connect_setup_cert, syn_connect_setup_handshake,
          load_cert_hash, store_cert_hash, configWriteString, configTryString, strcasecmp_self,
          hsock, hconn, h3, hcfg, h5, hconf, hcs, hhs, htls, htofu, hstore, hpeer, h9]
        exact ⟨[Event.socket ai, Event.connect os.socket_ret ai, Event.tls_client,
          Event.tls_config_new, Event.configTryString ("tls/hash/" ++ c.host),
          Event.osFileExists "tls/cert",
          Event.tls_config_insecure_noverifycert, Event.tls_config_insecure_noverifyname,
          Event.tls_configure, Event.tls_config_free,
          Event.tls_connect_socket os.socket_ret c.host, Event.tls_handshake,
          Event.tls_peer_cert_hash, Event.tls_peer_cert_hash,
          Event.logInfo "Trust-on-first-use enabled, saving hash %s"],
          ⟨[Event.logErr "Could not save certificate hash"], by simp⟩, by simp⟩

/-- The statement `tofu_adoption` at `example.com` with an empty trust store and
a peer presenting `AA:BB`. -/
theorem tofu_adoption_witness :
    ((syn_connect_setup ctxTofu worldEmpty ai4 osGood).ret = true ↔
      osGood.configWriteString_ok = true) ∧
    (∃ pre post, (syn_connect_setup ctxTofu worldEmpty ai4 osGood).world.trace
        = worldEmpty.trace ++ pre ++
          Event.configWriteString ("tls/hash/" ++ ctxTofu.host) "AA:BB" :: post ∧
      Event.tls_handshake ∈ pre) ∧
    ((syn_connect_setup ctxTofu worldEmpty ai4 osGood).ret = true →
      (syn_connect_setup ctxTofu worldEmpty ai4 osGood).ctx.tls_hash = some "AA:BB" ∧
      (syn_connect_setup ctxTofu worldEmpty ai4 osGood).ctx.fd = osGood.socket_ret ∧
      (syn_connect_setup ctxTofu worldEmpty ai4 osGood).ctx.tls_ctx = osGood.tls_client_ret ∧
      configTryString (syn_connect_setup ctxTofu worldEmpty ai4 osGood).world.store
        ("tls/hash/" ++ ctxTofu.host) = some "AA:BB") ∧
    (osGood.configWriteString_ok = false →
      (syn_connect_setup ctxTofu worldEmpty ai4 osGood).ret = false ∧
      (syn_connect_setup ctxTofu worldEmpty ai4 osGood).world.store = worldEmpty.store) :=
  tofu_adoption ctxTofu worldEmpty ai4 osGood "AA:BB" (by decide) (by decide) (by decide)
    (by decide) (by decide) (by decide) (by decide) (by decide) (by decide) (by decide)
    (by decide) (by decide)

/-- The last part of an attempt changes nothing in the context but
`tls_hash`. -/
theorem syn_connect_setup_handshake_frame (c : synNetContext) (w : World) (os : SetupOracle) :
    (syn_connect_setup_handshake c w os).ctx.fd = c.fd ∧
    (syn_connect_setup_handshake c w os).ctx.tls_ctx = c.tls_ctx ∧
    (syn_connect_setup_handshake c w os).ctx.host = c.host ∧
    (syn_connect_setup_handshake c w os).ctx.port = c.port ∧
    (syn_connect_setup_handshake c w os).ctx.tls = c.tls ∧
    (syn_connect_setup_handshake c w os).ctx.tls_tofu = c.tls_tofu ∧
    (syn_connect_setup_handshake c w os).ctx.syn_ctx = c.syn_ctx := by
  by_cases h6 : os.tls_configure_ret = 0 <;>
  by_cases h7 : os.tls_connect_socket_ret = 0 <;>
  by_cases h8 : os.tls_handshake_ret = 0 <;>
  cases hp : os.tls_peer_cert_hash_ret <;>
  cases hh : c.tls_hash <;>
  by_cases h9 : os.configWriteString_ok = true <;>
  simp [syn_connect_setup_handshake, store_cert_hash, configWriteString, strcasecmp_self,
    h6, h7, h8, hp, hh, h9] <;>
  split <;> simp

/-- The client-certificate part changes nothing in the context but
`tls_hash`. -/
theorem syn_connect_setup_cert_frame (c : synNetContext) (w : World) (os : SetupOracle) :
    (syn_connect_setup_cert c w os).ctx.fd = c.fd ∧
    (syn_connect_setup_cert c w os).ctx.tls_ctx = c.tls_ctx ∧
    (syn_connect_setup_cert c w os).ctx.host = c.host ∧
    (syn_connect_setup_cert c w os).ctx.port = c.port ∧
    (syn_connect_setup_cert c w os).ctx.tls = c.tls ∧
    (syn_connect_setup_cert c w os).ctx.tls_tofu = c.tls_tofu ∧
    (syn_connect_setup_cert c w os).ctx.syn_ctx = c.syn_ctx := by
  by_cases h5 : os.cert_file_exists = true <;>
  by_cases h5a : os.tls_config_set_cert_file_ret = 0 <;>
  simp [syn_connect_setup_cert, h5, h5a, syn_connect_setup_handshake_frame]

/-- One attempt leaves the fields it never assigns as they were. -/
theorem syn_connect_setup_frame (c : synNetContext) (w : World) (ai : addrinfo)
    (os : SetupOracle) :
    (syn_connect_setup c w ai os).ctx.host = c.host ∧
    (syn_connect_setup c w ai os).ctx.port = c.port ∧
    (syn_connect_setup c w ai os).ctx.tls = c.tls ∧
    (syn_connect_setup c w ai os).ctx.tls_tofu = c.tls_tofu ∧
    (syn_connect_setup c w ai os).ctx.syn_ctx = c.syn_ctx := by
  by_cases h1 : os.socket_ret = -1
  · simp [syn_connect_setup, h1]
  by_cases h2 : os.connect_ret = 0
  swap
  · simp [syn_connect_setup, h1, h2]
  by_cases h0 : c.tls = true
  swap
  · simp [syn_connect_setup, h1, h2, h0]
  cases h3 : os.tls_client_ret with
  | none => simp [syn_connect_setup, h1, h2, h3, h0]
  | some tc =>
    by_cases h4 : os.tls_config_new_ok = false <;>
    cases hl : configTryString w.store ("tls/hash/" ++ c.host) <;>
    by_cases ht : c.tls_tofu = false <;>
    simp [syn_connect_setup, load_cert_hash, h1, h2, h3, h4, h0, hl, ht,
      syn_connect_setup_cert_frame]

/-- Started without TLS handle and pinned fingerprint, one attempt ends, at
whichever step, in a state where a missing socket goes with a missing TLS
handle and a missing TLS handle with a missing fingerprint. -/
theorem syn_connect_setup_inv (c : synNetContext) (w : World) (ai : addrinfo) (os : SetupOracle)
    (hc : c.tls_ctx = none) (hh : c.tls_hash = none) :
    ((syn_connect_setup c w ai os).ctx.fd = -1 →
      (syn_connect_setup c w ai os).ctx.tls_ctx = none) ∧
    ((syn_connect_setup c w ai os).ctx.tls_ctx = none →
      (syn_connect_setup c w ai os).ctx.tls_hash = none) := by
  by_cases h1 : os.socket_ret = -1
  · simp [syn_connect_setup, h1, hc, hh]
  by_cases h2 : os.connect_ret = 0
  swap
  · simp [syn_connect_setup, h1, h2, hc, hh]
  by_cases h0 : c.tls = true
  swap
  · simp [syn_connect_setup, h1, h2, h0, hc, hh]
  cases h3 : os.tls_client_ret with
  | none => simp [syn_connect_setup, h1, h2, h3, h0, hc, hh]
  | some tc =>
    by_cases h4 : os.tls_config_new_ok = false <;>
    cases hl : configTryString w.store ("tls/hash/" ++ c.host) <;>
    by_cases ht : c.tls_tofu = false <;>
    simp [syn_connect_setup, load_cert_hash, h1, h2, h3, h4, h0, hl, ht, hc, hh,
      syn_connect_setup_cert_frame]

/-- From a state in which a missing socket goes with a missing TLS handle and a
missing TLS handle with a missing fingerprint, `synNetDisconnect` reaches the
fully disconnected state. -/
theorem synNetDisconnect_clears (c : synNetContext) (w : World) (r : Int)
    (h1 : c.fd = -1 → c.tls_ctx = none) (h2 : c.tls_ctx = none → c.tls_hash = none) :
    FullyDisconnected (synNetDisconnect c w r).ctx := by
  by_cases hf : c.fd = -1
  · have ht := h1 hf
    simp [synNetDisconnect, hf, FullyDisconnected, ht, h2 ht]
  cases ht : c.tls_ctx with
  | none => simp [synNetDisconnect, hf, ht, FullyDisconnected, h2 ht]
  | some t => simp [synNetDisconnect, hf, ht, FullyDisconnected]

/-- Every reachable state keeps the two implications. -/
theorem Reachable.inv {c : synNetContext} (hc : Reachable c) :
    (c.fd = -1 → c.tls_ctx = none) ∧ (c.tls_ctx = none → c.tls_hash = none) := by
  induction hc with
  | init c0 context host port tls tofu h0 => simp [synNetInit, h0.1, h0.2]
  | disconnect c w r _ ih =>
    obtain ⟨_, d2, d3⟩ := synNetDisconnect_clears c w r ih.1 ih.2
    exact ⟨fun _ => d2, fun _ => d3⟩
  | setup c w w1 r ai os _ ih =>
    obtain ⟨_, d2, d3⟩ := synNetDisconnect_clears c w r ih.1 ih.2
    exact syn_connect_setup_inv _ w1 ai os d2 d3
  | engine c e _ ih => exact ih

/-- C4. Atomic disconnect: from every state the program can be in (after
`synNetInit`, after an attempt that failed at any step, after an earlier
disconnect), `synNetDisconnect` leaves `fd = -1`, no TLS handle and no pinned
fingerprint; in particular `fd = -1` implies that the TLS handle is absent
after every disconnect. -/
theorem atomic_disconnect (c : synNetContext) (hc : Reachable c) (w : World) (r : Int) :
    (synNetDisconnect c w r).ctx.fd = -1 ∧
    (synNetDisconnect c w r).ctx.tls_ctx = none ∧
    (synNetDisconnect c w r).ctx.tls_hash = none ∧
    ((synNetDisconnect c w r).ctx.fd = -1 → (synNetDisconnect c w r).ctx.tls_ctx = none) := by
  obtain ⟨d1, d2, d3⟩ := synNetDisconnect_clears c w r hc.inv.1 hc.inv.2
  exact ⟨d1, d2, d3, fun _ => d2⟩

/-- The statement `atomic_disconnect` at the state left by an attempt on
`example.com` whose peer presents a fingerprint other than the pinned one. -/
theorem atomic_disconnect_witness :
    (synNetDisconnect (syn_connect_setup (synNetDisconnect
        (synNetInit ctxTofu engine0 "example.com" "24800" true true).2 worldPinned 0).ctx
        worldPinned ai4 osOther).ctx worldPinned 0).ctx.fd = -1 ∧
    (synNetDisconnect (syn_connect_setup (synNetDisconnect
        (synNetInit ctxTofu engine0 "example.com" "24800" true true).2 worldPinned 0).ctx
        worldPinned ai4 osOther).ctx worldPinned 0).ctx.tls_ctx = none ∧
    (synNetDisconnect (syn_connect_setup (synNetDisconnect
        (synNetInit ctxTofu engine0 "example.com" "24800" true true).2 worldPinned 0).ctx
        worldPinned ai4 osOther).ctx worldPinned 0).ctx.tls_hash = none ∧
    ((synNetDisconnect (syn_connect_setup (synNetDisconnect
        (synNetInit ctxTofu engine0 "example.com" "24800" true true).2 worldPinned 0).ctx
        worldPinned ai4 osOther).ctx worldPinned 0).ctx.fd = -1 →
      (synNetDisconnect (syn_connect_setup (synNetDisconnect
        (synNetInit ctxTofu engine0 "example.com" "24800" true true).2 worldPinned 0).ctx
        worldPinned ai4 osOther).ctx worldPinned 0).ctx.tls_ctx = none) :=
  atomic_disconnect _
    (Reachable.setup _ worldPinned worldPinned 0 ai4 osOther
      (Reachable.init ctxTofu engine0 "example.com" "24800" true true ⟨rfl, rfl⟩))
    worldPinned 0

/-- C5, as the claim states it, fails: on a session that is connected (socket
5, TLS handle 1, engine connected) a call of `syn_connect` whose address
resolution fails returns failure with the socket, the TLS handle and the
connected flag as they were, and `synNetDisconnect` is never entered. -/
theorem reconnect_resolution_failure_keeps_connection :
    (syn_connect 2000 ctxOpen worldEmpty (-2) [] 0 ⟨0, 0⟩).ret = false ∧
    (syn_connect 2000 ctxOpen worldEmpty (-2) [] 0 ⟨0, 0⟩).ctx.fd = 5 ∧
    (syn_connect 2000 ctxOpen worldEmpty (-2) [] 0 ⟨0, 0⟩).ctx.tls_ctx = some 1 ∧
    (syn_connect 2000 ctxOpen worldEmpty (-2) [] 0 ⟨0, 0⟩).ctx.syn_ctx.m_connected = true ∧
    Event.synNetDisconnect ∉ (syn_connect 2000 ctxOpen worldEmpty (-2) [] 0 ⟨0, 0⟩).world.trace ∧
    (syn_connect 2000 ctxOpen worldEmpty EAI_SYSTEM [] 0 ⟨0, 0⟩).ctx.fd = 5 ∧
    Event.synNetDisconnect ∉
      (syn_connect 2000 ctxOpen worldEmpty EAI_SYSTEM [] 0 ⟨0, 0⟩).world.trace := by
  decide

/-- C5, amended. On a context that holds an open connection, `syn_connect`
resolves the address first.  When resolution succeeds, `synNetDisconnect` runs
next, before any establishment step: the calls made up to the end of that
disconnect are the resolution, the entry into `synNetDisconnect`, the TLS
teardown and the shutdown and close of the old socket; the context the
candidate loop starts from has `fd = -1`, no TLS handle and the engine's
connected flag false; and the whole call is that loop run from that context.
When resolution fails, in either subcase, `syn_connect` returns failure
without any establishment step and without entering `synNetDisconnect`: the
context is left as it was. -/
theorem reconnect_disconnects_after_resolution (IDLE : Nat) (c : synNetContext) (w : World)
    (hostinfo : List Candidate) (r0 : Int) (ts : timespec) (hopen : c.fd ≠ -1) :
    (∃ teardown,
      (synNetDisconnect c ((w.emit (Event.logInfo "Going to connect to %s at port %s")).emit
          (Event.getaddrinfo c.host c.port)) r0).world.trace
        = w.trace ++ [Event.logInfo "Going to connect to %s at port %s",
            Event.getaddrinfo c.host c.port, Event.synNetDisconnect] ++ teardown ++
            [Event.shutdown c.fd, Event.close c.fd] ∧
      ∀ ev ∈ teardown, (∃ h, ev = Event.tls_close h) ∨ (∃ h, ev = Event.tls_free h) ∨
        ∃ m, ev = Event.logErr m) ∧
    (synNetDisconnect c ((w.emit (Event.logInfo "Going to connect to %s at port %s")).emit
        (Event.getaddrinfo c.host c.port)) r0).ctx.fd = -1 ∧
    (synNetDisconnect c ((w.emit (Event.logInfo "Going to connect to %s at port %s")).emit
        (Event.getaddrinfo c.host c.port)) r0).ctx.tls_ctx = none ∧
    (synNetDisconnect c ((w.emit (Event.logInfo "Going to connect to %s at port %s")).emit
        (Event.getaddrinfo c.host c.port)) r0).ctx.syn_ctx.m_connected = false ∧
    (syn_connect IDLE c w 0 hostinfo r0 ts).ret =
      (syn_connect_loop IDLE ts
        (synNetDisconnect c ((w.emit (Event.logInfo "Going to connect to %s at port %s")).emit
          (Event.getaddrinfo c.host c.port)) r0).ctx
        (synNetDisconnect c ((w.emit (Event.logInfo "Going to connect to %s at port %s")).emit
          (Event.getaddrinfo c.host c.port)) r0).world hostinfo).ret ∧
    (syn_connect IDLE c w 0 hostinfo r0 ts).ctx =
      (syn_connect_loop IDLE ts
        (synNetDisconnect c ((w.emit (Event.logInfo "Going to connect to %s at port %s")).emit
          (Event.getaddrinfo c.host c.port)) r0).ctx
        (synNetDisconnect c ((w.emit (Event.logInfo "Going to connect to %s at port %s")).emit
          (Event.getaddrinfo c.host c.port)) r0).world hostinfo).ctx ∧
    (syn_connect IDLE c w 0 hostinfo r0 ts).world.trace =
      (syn_connect_loop IDLE ts
        (synNetDisconnect c ((w.emit (Event.logInfo "Going to connect to %s at port %s")).emit
          (Event.getaddrinfo c.host c.port)) r0).ctx
        (synNetDisconnect c ((w.emit (Event.logInfo "Going to connect to %s at port %s")).emit
          (Event.getaddrinfo c.host c.port)) r0).world hostinfo).world.trace
        ++ [Event.freeaddrinfo] ∧
    (∀ g : Int, g ≠ 0 →
      (syn_connect IDLE c w g hostinfo r0 ts).ret = false ∧
      (syn_connect IDLE c w g hostinfo r0 ts).ctx = c ∧
      ∃ m, (syn_connect IDLE c w g hostinfo r0 ts).world.trace
        = w.trace ++ [Event.logInfo "Going to connect to %s at port %s",
            Event.getaddrinfo c.host c.port, m] ∧
          ((∃ t, m = Event.logErr t) ∨ ∃ t, m = Event.logPErr t)) := by
  refine ⟨?_, ?_, ?_, ?_, ?_, ?_, ?_, ?_⟩
  · cases ht : c.tls_ctx with
    | none => exact ⟨[], by simp [synNetDisconnect, hopen, ht], by simp⟩
    | some t =>
      by_cases hr : r0 = 0
      · exact ⟨[Event.tls_close t, Event.tls_free t],
          by simp [synNetDisconnect, hopen, ht, hr], by simp⟩
      · exact ⟨[Event.tls_close t, Event.logErr "tls_close error: %s", Event.tls_free t],
          by simp [synNetDisconnect, hopen, ht, hr], by simp⟩
  · simp [synNetDisconnect, hopen]
  · cases ht : c.tls_ctx <;> simp [synNetDisconnect, hopen, ht]
  · simp [synNetDisconnect, hopen]
  · simp [syn_connect]
  · simp [syn_connect]
  · simp [syn_connect]
  · intro g hg
    by_cases hs : g = -11
    · simp [syn_connect, hs, EAI_SYSTEM]
    · simp [syn_connect, hg, hs, EAI_SYSTEM]

/-- The statement `reconnect_disconnects_after_resolution` at the connected
session `ctxOpen` with one candidate. -/
theorem reconnect_disconnects_after_resolution_witness :
    (synNetDisconnect ctxOpen ((worldEmpty.emit
        (Event.logInfo "Going to connect to %s at port %s")).emit
        (Event.getaddrinfo ctxOpen.host ctxOpen.port)) 0).ctx.fd = -1 ∧
    (syn_connect 2000 ctxOpen worldEmpty 0 [⟨ai4, osGood, 0⟩] 0 ⟨0, 0⟩).ctx =
      (syn_connect_loop 2000 ⟨0, 0⟩
        (synNetDisconnect ctxOpen ((worldEmpty.emit
          (Event.logInfo "Going to connect to %s at port %s")).emit
          (Event.getaddrinfo ctxOpen.host ctxOpen.port)) 0).ctx
        (synNetDisconnect ctxOpen ((worldEmpty.emit
          (Event.logInfo "Going to connect to %s at port %s")).emit
          (Event.getaddrinfo ctxOpen.host ctxOpen.port)) 0).world [⟨ai4, osGood, 0⟩]).ctx :=
  ⟨(reconnect_disconnects_after_resolution 2000 ctxOpen worldEmpty [⟨ai4, osGood, 0⟩] 0 ⟨0, 0⟩
      (by decide)).2.1,
    (reconnect_disconnects_after_resolution 2000 ctxOpen worldEmpty [⟨ai4, osGood, 0⟩] 0 ⟨0, 0⟩
      (by decide)).2.2.2.2.2.1⟩

/-- C6, as the claim states it, fails: on a plain session whose peer has closed
the connection, so that `read` answers 0, `syn_recv` fails and sets the
engine's last error to `USYNERGY_ERROR_TIMEOUT`; the same happens over TLS
when `tls_read` answers 0 or the error value -1. -/
theorem recv_peer_close_reports_timeout :
    (syn_recv 2000 ctxPlainOpen worldEmpty [0]).map
        (fun r => (r.ret, r.ctx.syn_ctx.m_lastError))
      = some ((false, 0), uSynergyError.USYNERGY_ERROR_TIMEOUT) ∧
    (syn_recv 2000 ctxOpen worldEmpty [0]).map
        (fun r => (r.ret, r.ctx.syn_ctx.m_lastError))
      = some ((false, 0), uSynergyError.USYNERGY_ERROR_TIMEOUT) ∧
    (syn_recv 2000 ctxOpen worldEmpty [TLS_WANT_POLLIN, -1]).map
        (fun r => (r.ret, r.ctx.syn_ctx.m_lastError))
      = some ((false, -1), uSynergyError.USYNERGY_ERROR_TIMEOUT) := by
  decide

/-- The read loop over TLS returns as soon as `tls_read` gives an answer that
is not a retry value. -/
theorem tls_read_loop_returns (answers : List Int) : ∀ w : World,
    (∃ a ∈ answers, a ≠ TLS_WANT_POLLIN ∧ a ≠ TLS_WANT_POLLOUT) →
    (tls_read_loop answers w).isSome = true := by
  induction answers with
  | nil => intro w h; simp at h
  | cons r rest ih =>
    intro w h
    simp only [tls_read_loop]
    by_cases hw : r = TLS_WANT_POLLIN ∨ r = TLS_WANT_POLLOUT
    · simp only [hw, if_true]
      apply ih
      obtain ⟨a, ha, h1, h2⟩ := h
      rcases List.mem_cons.mp ha with e | e
      · subst e
        rcases hw with hw | hw
        · exact absurd hw h1
        · exact absurd hw h2
      · exact ⟨a, e, h1, h2⟩
    · simp [hw]

/-- C6, amended. Every call of `syn_recv` that returns fails exactly when the
byte count it read is below 1, and every failing call, whatever made the read
fail, sets the engine's last error to `USYNERGY_ERROR_TIMEOUT`; a successful
call leaves the context as it was.  The call returns as soon as the read has
given an answer that is not a retry value. -/
theorem recv_failure_sets_timeout (IDLE : Nat) (c : synNetContext) (w : World)
    (answers : List Int) :
    (∀ r, syn_recv IDLE c w answers = some r →
      (r.ret.1 = false ↔ r.ret.2 < 1) ∧
      (r.ret.1 = false →
        r.ctx.syn_ctx.m_lastError = uSynergyError.USYNERGY_ERROR_TIMEOUT) ∧
      (r.ret.1 = true → r.ctx = c)) ∧
    ((∃ a ∈ answers, a ≠ TLS_WANT_POLLIN ∧ a ≠ TLS_WANT_POLLOUT) →
      (syn_recv IDLE c w answers).isSome = true) := by
  constructor
  · intro r hr
    simp only [syn_recv] at hr
    split at hr
    · exact absurd hr (by simp)
    · rename_i out_len w1 _
      by_cases hlt : out_len < 1
      · simp only [hlt, if_true, Option.some.injEq] at hr
        subst hr
        simp [hlt]
      · simp only [hlt, if_false, Option.some.injEq] at hr
        subst hr
        simp [hlt]
  · intro hne
    cases ht : c.tls_ctx with
    | none =>
      cases answers with
      | nil => simp at hne
      | cons a rest =>
        by_cases hlt : a < 1 <;> simp [syn_recv, ht, hlt]
    | some t =>
      have hl := tls_read_loop_returns answers (w.emit (Event.alarm (IDLE / 1000))) hne
      cases hrd : tls_read_loop answers (w.emit (Event.alarm (IDLE / 1000))) with
      | none => rw [hrd] at hl; simp at hl
      | some p =>
        obtain ⟨out_len, w1⟩ := p
        by_cases hlt : out_len < 1 <;> simp [syn_recv, ht, hrd, hlt]

/-- The statement `recv_failure_sets_timeout` at a TLS session whose `tls_read`
asks for a retry and then answers -1. -/
theorem recv_failure_sets_timeout_witness :
    (syn_recv 2000 ctxOpen worldEmpty [TLS_WANT_POLLIN, -1]).isSome = true :=
  (recv_failure_sets_timeout 2000 ctxOpen worldEmpty [TLS_WANT_POLLIN, -1]).2
    ⟨-1, by decide, by decide, by decide⟩

theorem written_nil : written [] = 0 := rfl

theorem written_cons (k : WriteCall) (calls : List WriteCall) :
    written (k :: calls) = (if 0 < k.2.2 then k.2.2 else 0) + written calls := by
  simp [written]

/-- C8. Send writes the whole buffer.  Whenever `tls_write_full` returns, the
calls of `tls_write` it made are recorded in order and their answers are the
first answers given; the first call is given the whole buffer; it returns
false exactly when one of those calls answered -1; a call that answered
`TLS_WANT_POLLIN` or `TLS_WANT_POLLOUT` is followed by a call with the same
offset and length; and when every answer is one libtls allows, each call was
given the offset and the length that remain after the bytes accepted so far,
and on a true return the accepted bytes sum to exactly `len`.  The function
does return whenever one of the answers is -1, and when the first answer takes
the whole buffer. -/
theorem send_writes_whole_buffer (answers : List Int) :
    ∀ (pos : Int) (len : Nat) (w : World), len < 18446744073709551616 →
    (∀ (b : Bool) (w1 : World), tls_write_full answers pos len w = some (b, w1) →
      ∃ calls : List WriteCall,
        w1.trace = w.trace ++ tlsWriteEvents calls ++
          (if b then [] else [Event.logErr "tls_write failed: %s"]) ∧
        calls.map (fun k => k.2.2) <+: answers ∧
        (∀ (p : Int) (l : Nat) (r : Int), calls[0]? = some (p, l, r) → p = pos ∧ l = len) ∧
        (b = false ↔ ∃ k ∈ calls, k.2.2 = -1) ∧
        (∀ (i : Nat) (p : Int) (l : Nat) (r : Int) (p1 : Int) (l1 : Nat) (r1 : Int),
          calls[i]? = some (p, l, r) → calls[i + 1]? = some (p1, l1, r1) →
          r = TLS_WANT_POLLIN ∨ r = TLS_WANT_POLLOUT → p1 = p ∧ l1 = l) ∧
        ((∀ k ∈ calls, answerAllowed k) →
          (∀ (i : Nat) (p : Int) (l : Nat) (r : Int), calls[i]? = some (p, l, r) →
            p = pos + written (calls.take i) ∧
            (l : Int) = (len : Int) - written (calls.take i)) ∧
          (b = true → written calls = (len : Int)))) ∧
    (((-1 : Int) ∈ answers ∨ (0 < len ∧ answers.head? = some (len : Int))) →
      (tls_write_full answers pos len w).isSome = true) := by
  induction answers with
  | nil =>
    intro pos len w _
    constructor
    · intro b w1 h
      unfold tls_write_full at h
      by_cases h0 : len = 0
      · simp only [h0, if_true, Option.some.injEq, Prod.mk.injEq] at h
        obtain ⟨rfl, rfl⟩ := h
        exact ⟨[], by simp [tlsWriteEvents], by simp, by simp, by simp, by simp, fun _ =>
          ⟨by simp, fun _ => by simp [written_nil, h0]⟩⟩
      · simp [h0] at h
    · intro hh
      simp at hh
  | cons ret rest ih =>
    intro pos len w hlen
    constructor
    · intro b w1 h
      unfold tls_write_full at h
      by_cases h0 : len = 0
      · simp only [h0, if_true, Option.some.injEq, Prod.mk.injEq] at h
        obtain ⟨rfl, rfl⟩ := h
        exact ⟨[], by simp [tlsWriteEvents], by simp, by simp, by simp, by simp, fun _ =>
          ⟨by simp, fun _ => by simp [written_nil, h0]⟩⟩
      · simp only [h0, if_false] at h
        by_cases hw : ret = TLS_WANT_POLLIN ∨ ret = TLS_WANT_POLLOUT
        · simp only [hw, if_true] at h
          obtain ⟨calls, ht, hpre, hhead, hfalse, hwant, hidx⟩ := (ih pos len _ hlen).1 b w1 h
          have hneg : ¬ (0 < ret) := by
            rcases hw with hw | hw <;> simp [hw, TLS_WANT_POLLIN, TLS_WANT_POLLOUT]
          have hne1 : ret ≠ -1 := by
            rcases hw with hw | hw <;> simp [hw, TLS_WANT_POLLIN, TLS_WANT_POLLOUT]
          refine ⟨(pos, len, ret) :: calls, ?_, ?_, ?_, ?_, ?_, ?_⟩
          · rw [ht]; simp [tlsWriteEvents]
          · simpa using hpre
          · intro p l r hp
            simp only [List.getElem?_cons_zero, Option.some.injEq, Prod.mk.injEq] at hp
            exact ⟨hp.1.symm, hp.2.1.symm⟩
          · rw [hfalse]; simp [hne1]
          · intro i p l r p1 l1 r1 hi hi1 hr
            cases i with
            | zero =>
              simp only [List.getElem?_cons_zero, Option.some.injEq, Prod.mk.injEq] at hi
              obtain ⟨rfl, rfl, rfl⟩ := hi
              have hi1' : calls[0]? = some (p1, l1, r1) := by simpa using hi1
              exact hhead p1 l1 r1 hi1'
            | succ j =>
              simp only [List.getElem?_cons_succ] at hi hi1
              exact hwant j p l r p1 l1 r1 hi hi1 hr
          · intro hall
            have hall' : ∀ k ∈ calls, answerAllowed k := fun k hk =>
              hall k (List.mem_cons_of_mem _ hk)
            obtain ⟨hix, hsum⟩ := hidx hall'
            refine ⟨?_, ?_⟩
            · intro i p l r hi
              cases i with
              | zero =>
                simp only [List.getElem?_cons_zero, Option.some.injEq, Prod.mk.injEq] at hi
                obtain ⟨rfl, rfl, rfl⟩ := hi
                simp [written_nil]
              | succ j =>
                simp only [List.getElem?_cons_succ] at hi
                obtain ⟨e1, e2⟩ := hix j p l r hi
                simp only [List.take_succ_cons, written_cons, hneg, if_false, zero_add]
                exact ⟨e1, e2⟩
            · intro hb
              simp only [written_cons, hneg, if_false, zero_add]
              exact hsum hb
        · simp only [hw, if_false] at h
          by_cases hm : ret = -1
          · simp only [hm, if_true, Option.some.injEq, Prod.mk.injEq] at h
            obtain ⟨rfl, rfl⟩ := h
            refine ⟨[(pos, len, -1)], by simp [tlsWriteEvents, hm], by simp [hm], ?_, by simp,
              ?_, ?_⟩
            · intro p l r hp
              simp only [List.getElem?_cons_zero, Option.some.injEq, Prod.mk.injEq] at hp
              exact ⟨hp.1.symm, hp.2.1.symm⟩
            · intro i p l r p1 l1 r1 _ hi1 _
              simp at hi1
            · intro _
              refine ⟨?_, by simp⟩
              intro i p l r hi
              cases i with
              | zero =>
                simp only [List.getElem?_cons_zero, Option.some.injEq, Prod.mk.injEq] at hi
                obtain ⟨rfl, rfl, rfl⟩ := hi
                simp [written_nil]
              | succ j => simp at hi
          · simp only [hm, if_false] at h
            have hlen1 : Int.toNat (((len : Int) - ret) % 18446744073709551616)
                < 18446744073709551616 := by
              have := Int.emod_lt_of_pos ((len : Int) - ret)
                (show (0 : Int) < 18446744073709551616 by norm_num)
              have h2 := Int.emod_nonneg ((len : Int) - ret)
                (show (18446744073709551616 : Int) ≠ 0 by norm_num)
              omega
            obtain ⟨calls, ht, hpre, hhead, hfalse, hwant, hidx⟩ :=
              (ih (pos + ret) _ _ hlen1).1 b w1 h
            have hnw1 : ret ≠ TLS_WANT_POLLIN := fun e => hw (Or.inl e)
            have hnw2 : ret ≠ TLS_WANT_POLLOUT := fun e => hw (Or.inr e)
            refine ⟨(pos, len, ret) :: calls, ?_, ?_, ?_, ?_, ?_, ?_⟩
            · rw [ht]; simp [tlsWriteEvents]
            · simpa using hpre
            · intro p l r hp
              simp only [List.getElem?_cons_zero, Option.some.injEq, Prod.mk.injEq] at hp
              exact ⟨hp.1.symm, hp.2.1.symm⟩
            · rw [hfalse]; simp [hm]
            · intro i p l r p1 l1 r1 hi hi1 hr
              cases i with
              | zero =>
                simp only [List.getElem?_cons_zero, Option.some.injEq, Prod.mk.injEq] at hi
                obtain ⟨rfl, rfl, rfl⟩ := hi
                exact absurd hr hw
              | succ j =>
                simp only [List.getElem?_cons_succ] at hi hi1
                exact hwant j p l r p1 l1 r1 hi hi1 hr
            · intro hall
              have hall' : ∀ k ∈ calls, answerAllowed k := fun k hk =>
                hall k (List.mem_cons_of_mem _ hk)
              have hhd : answerAllowed (pos, len, ret) := hall _ (List.mem_cons_self _ _)
              have hrange : 0 ≤ ret ∧ ret ≤ (len : Int) := by
                rcases hhd with h1 | h1 | h1 | h1
                · exact absurd h1 hm
                · exact absurd h1 hnw1
                · exact absurd h1 hnw2
                · exact h1
              have hlen2 : ((Int.toNat (((len : Int) - ret) % 18446744073709551616) : Nat) : Int)
                  = (len : Int) - ret := by
                have e1 : ((len : Int) - ret) % 18446744073709551616 = (len : Int) - ret :=
                  Int.emod_eq_of_lt (by omega) (by omega)
                rw [e1]
                exact Int.toNat_of_nonneg (by omega)
              have hpart : (if 0 < ret then ret else 0) = ret := by
                by_cases hz : 0 < ret
                · simp [hz]
                · have : ret = 0 := by omega
                  simp [this]
              obtain ⟨hix, hsum⟩ := hidx hall'
              refine ⟨?_, ?_⟩
              · intro i p l r hi
                cases i with
                | zero =>
                  simp only [List.getElem?_cons_zero, Option.some.injEq, Prod.mk.injEq] at hi
                  obtain ⟨rfl, rfl, rfl⟩ := hi
                  simp [written_nil]
                | succ j =>
                  simp only [List.getElem?_cons_succ] at hi
                  obtain ⟨e1, e2⟩ := hix j p l r hi
                  simp only [List.take_succ_cons, written_cons, hpart]
                  rw [hlen2] at e2
                  constructor
                  · rw [e1]; ring
                  · rw [e2]; ring
              · intro hb
                have := hsum hb
                rw [hlen2] at this
                simp only [written_cons, hpart]
                rw [this]; ring
    · intro hh
      rcases hh with hmem | ⟨hpos, hh⟩
      · unfold tls_write_full
        by_cases h0 : len = 0
        · simp [h0]
        · simp only [h0, if_false]
          by_cases hw : ret = TLS_WANT_POLLIN ∨ ret = TLS_WANT_POLLOUT
          · have hrest : (-1 : Int) ∈ rest := by
              rcases List.mem_cons.mp hmem with h | h
              · rcases hw with hw | hw <;>
                  simp [← h, TLS_WANT_POLLIN, TLS_WANT_POLLOUT] at hw
              · exact h
            simp only [hw, if_true]
            exact (ih pos len _ hlen).2 (Or.inl hrest)
          · simp only [hw, if_false]
            by_cases hm : ret = -1
            · simp [hm]
            · have hrest : (-1 : Int) ∈ rest := by
                rcases List.mem_cons.mp hmem with h | h
                · exact absurd h.symm hm
                · exact h
              have hlen1 : Int.toNat (((len : Int) - ret) % 18446744073709551616)
                  < 18446744073709551616 := by
                have := Int.emod_lt_of_pos ((len : Int) - ret)
                  (show (0 : Int) < 18446744073709551616 by norm_num)
                have h2 := Int.emod_nonneg ((len : Int) - ret)
                  (show (18446744073709551616 : Int) ≠ 0 by norm_num)
                omega
              simp only [hm, if_false]
              exact (ih (pos + ret) _ _ hlen1).2 (Or.inl hrest)
      · have h0 : len ≠ 0 := by omega
        simp only [List.head?_cons, Option.some.injEq] at hh
        unfold tls_write_full
        subst hh
        have hn1 : ¬ ((len : Int) = TLS_WANT_POLLIN ∨ (len : Int) = TLS_WANT_POLLOUT) := by
          simp only [TLS_WANT_POLLIN, TLS_WANT_POLLOUT]; omega
        have hn2 : ¬ ((len : Int) = -1) := by omega
        simp only [h0, if_false, hn1, hn2]
        simp only [sub_self, Int.zero_emod, Int.toNat_zero]
        unfold tls_write_full
        simp

/-- The statement `send_writes_whole_buffer` at a five-byte buffer: libtls takes
three bytes, asks for a retry, then takes the other two. -/
theorem send_writes_whole_buffer_witness :
    (tls_write_full [3, -2, 2, -1] 0 5 worldEmpty).isSome = true ∧
    ∃ calls : List WriteCall,
      (worldEmpty.emit (Event.tls_write 0 5 3) |>.emit (Event.tls_write 3 2 (-2)) |>.emit
          (Event.tls_write 3 2 2)).trace
        = worldEmpty.trace ++ tlsWriteEvents calls ++
          (if true then [] else [Event.logErr "tls_write failed: %s"]) ∧
      calls.map (fun k => k.2.2) <+: [3, -2, 2, -1] :=
  ⟨(send_writes_whole_buffer [3, -2, 2, -1] 0 5 worldEmpty (by decide)).2
      (Or.inl (by decide)),
   by
    obtain ⟨calls, h1, h2, _⟩ := (send_writes_whole_buffer [3, -2, 2, -1] 0 5 worldEmpty
      (by decide)).1 true
      (worldEmpty.emit (Event.tls_write 0 5 3) |>.emit (Event.tls_write 3 2 (-2)) |>.emit
        (Event.tls_write 3 2 2)) (by decide)
    exact ⟨calls, h1, h2⟩⟩

/-- `synNetDisconnect` always ends with `fd = -1`; its first recorded call is
its own entry and none of its calls dispatches an event or steps the
engine. -/
theorem synNetDisconnect_fd (c : synNetContext) (w : World) (r : Int) :
    (synNetDisconnect c w r).ctx.fd = -1 ∧
    ∃ evs, (synNetDisconnect c w r).world.trace = w.trace ++ Event.synNetDisconnect :: evs ∧
      ∀ ev ∈ evs, ev.isDispatch = false ∧ ev ≠ Event.uSynergyUpdate := by
  by_cases h1 : c.fd = -1
  · simp [synNetDisconnect, h1]
  cases h2 : c.tls_ctx with
  | none => simp [synNetDisconnect, h1, h2, Event.isDispatch]
  | some t =>
    by_cases h3 : r = 0 <;> simp [synNetDisconnect, h1, h2, h3, Event.isDispatch]

/-- The loop over the clipboard updater slots records only clipboard dispatch
and signal handling. -/
theorem clipUpdaterLoop_trace (n : Nat) : ∀ (w : World) (i : Nat),
    ∃ evs, (clipUpdaterLoop w i n).trace = w.trace ++ evs ∧
      ∀ ev ∈ evs, ev ≠ Event.uSynergyUpdate := by
  induction n with
  | zero => intro w i; exact ⟨[], by simp [clipUpdaterLoop], by simp⟩
  | succ n ih =>
    intro w i
    obtain ⟨evs, h1, h2⟩ := ih ((w.emit (Event.clipMonitorPollProc i)).emit Event.sigHandleRun)
      (i + 1)
    refine ⟨Event.clipMonitorPollProc i :: Event.sigHandleRun :: evs, ?_, ?_⟩
    · simp only [clipUpdaterLoop]
      rw [h1]
      simp
    · intro ev hev
      simp only [List.mem_cons] at hev
      rcases hev with h | h | h
      · simp [h]
      · simp [h]
      · exact h2 ev h

/-- When the loop has gone round for all of `pre`, the rest of the run is the
loop on the remaining answers. -/
theorem netPoll_loop_append (IDLE CLIP_MON CLIP_UPDATER COUNT : Nat) (pre : List PollAnswer) :
    ∀ (s s1 : PollState) (l : List PollAnswer),
      loopRounds IDLE CLIP_MON CLIP_UPDATER COUNT pre s = some s1 →
      netPoll_loop IDLE CLIP_MON CLIP_UPDATER COUNT (pre ++ l) s
        = netPoll_loop IDLE CLIP_MON CLIP_UPDATER COUNT l s1 := by
  induction pre with
  | nil =>
    intro s s1 l h
    simp only [loopRounds, Option.some.injEq] at h
    subst h
    rfl
  | cons a rest ih =>
    intro s s1 l h
    simp only [loopRounds] at h
    by_cases hp : a.poll_ret > 0
    · simp only [hp, if_true] at h
      simp only [List.cons_append, netPoll_loop, hp, if_true]
      split at h
      · exact absurd h (by simp)
      · rename_i s2 heq
        exact ih s2 s1 l h
    · simp [hp] at h

theorem netPoll_eq (IDLE CLIP_MON CLIP_UPDATER COUNT : Nat) (c : synNetContext) (w : World)
    (wl : Bool) (answers : List PollAnswer) :
    netPoll IDLE CLIP_MON CLIP_UPDATER COUNT c w wl answers
      = netPoll_loop IDLE CLIP_MON CLIP_UPDATER COUNT answers (netPoll_entry c w wl) := rfl

/-- When the idle check of line 220 fires, the body of the loop makes
`netPoll` return right after `synNetDisconnect`, having dispatched nothing. -/
theorem netPoll_body_timeout (IDLE CLIP_MON CLIP_UPDATER COUNT : Nat) (a : PollAnswer)
    (s : PollState)
    (hidle : Int.toNat (((syn_get_time a.ts : Int) -
        ((afterNetworkStep a s).syn_ctx.m_lastMessageTime : Int)) % 4294967296)
      > IDLE % 4294967296) :
    ∃ s1, netPoll_body IDLE CLIP_MON CLIP_UPDATER COUNT a s = LoopStep.returned s1 ∧
      s1.snet.fd = -1 ∧
      ∃ evs, s1.world.trace = s.world.trace ++ evs ∧ Event.synNetDisconnect ∈ evs ∧
        ∀ ev ∈ evs, ev.isDispatch = false := by
  by_cases hp : a.syn_pollin = true
  · simp only [afterNetworkStep, hp, if_true] at hidle
    obtain ⟨d1, evs, d2, d3⟩ := synNetDisconnect_fd (a.update s.snet s.world.store).1
      ((((s.world.emit Event.sigHandleRun).setStore
          (a.update s.snet s.world.store).2).emit Event.uSynergyUpdate).emit Event.m_getTimeFunc |>.emit
        (Event.logErr "Synergy timeout encountered -- disconnecting")) a.tls_close_ret
    refine ⟨⟨(synNetDisconnect (a.update s.snet s.world.store).1
      ((((s.world.emit Event.sigHandleRun).setStore
          (a.update s.snet s.world.store).2).emit Event.uSynergyUpdate).emit Event.m_getTimeFunc |>.emit
        (Event.logErr "Synergy timeout encountered -- disconnecting")) a.tls_close_ret).ctx,
      (synNetDisconnect (a.update s.snet s.world.store).1
      ((((s.world.emit Event.sigHandleRun).setStore
          (a.update s.snet s.world.store).2).emit Event.uSynergyUpdate).emit Event.m_getTimeFunc |>.emit
        (Event.logErr "Synergy timeout encountered -- disconnecting")) a.tls_close_ret).world, s.wl_pollout⟩, ?_, ?_, ?_⟩
    · simp only [netPoll_body, hp, if_true, World.emit_store]
      rw [if_pos hidle]
    · exact d1
    · refine ⟨[Event.sigHandleRun, Event.uSynergyUpdate, Event.m_getTimeFunc,
        Event.logErr "Synergy timeout encountered -- disconnecting", Event.synNetDisconnect]
        ++ evs, ?_, by simp, ?_⟩
      · rw [d2]; simp
      · intro ev hev
        simp only [List.cons_append, List.nil_append, List.mem_cons] at hev
        rcases hev with h | h | h | h | h | h
        · subst h; rfl
        · subst h; rfl
        · subst h; rfl
        · subst h; rfl
        · subst h; rfl
        · exact (d3 ev h).1
  · have hp1 : a.syn_pollin = false := by simpa using hp
    simp only [afterNetworkStep, hp1, Bool.false_eq_true, if_false] at hidle
    obtain ⟨d1, evs, d2, d3⟩ := synNetDisconnect_fd s.snet
      (((s.world.emit Event.sigHandleRun).emit Event.m_getTimeFunc).emit
        (Event.logErr "Synergy timeout encountered -- disconnecting")) a.tls_close_ret
    refine ⟨⟨(synNetDisconnect s.snet
      (((s.world.emit Event.sigHandleRun).emit Event.m_getTimeFunc).emit
        (Event.logErr "Synergy timeout encountered -- disconnecting")) a.tls_close_ret).ctx,
      (synNetDisconnect s.snet
      (((s.world.emit Event.sigHandleRun).emit Event.m_getTimeFunc).emit
        (Event.logErr "Synergy timeout encountered -- disconnecting")) a.tls_close_ret).world, s.wl_pollout⟩, ?_, ?_, ?_⟩
    · simp only [netPoll_body, hp1, Bool.false_eq_true, if_false]
      rw [if_pos hidle]
    · exact d1
    · refine ⟨[Event.sigHandleRun, Event.m_getTimeFunc,
        Event.logErr "Synergy timeout encountered -- disconnecting", Event.synNetDisconnect]
        ++ evs, ?_, by simp, ?_⟩
      · rw [d2]; simp
      · intro ev hev
        simp only [List.cons_append, List.nil_append, List.mem_cons] at hev
        rcases hev with h | h | h | h | h
        · subst h; rfl
        · subst h; rfl
        · subst h; rfl
        · subst h; rfl
        · exact (d3 ev h).1

/-- C9. Idle timeout forces disconnect.  Take any call of `netPoll` and any
trip round its loop (the loop has gone round for the answers `pre` and is in
state `s`).  If `poll` answers a positive count and, after the network step,
the 32-bit difference between the clock and the engine's last message time
exceeds `USYNERGY_IDLE_TIMEOUT`, then `netPoll` returns, the calls made in
this trip include the entry into `synNetDisconnect` and no display or
clipboard dispatch, and the context has `fd = -1`.  If `poll` answers zero,
`netPoll` likewise enters `synNetDisconnect` and returns with `fd = -1`,
having dispatched nothing. -/
theorem idle_timeout_forces_disconnect (IDLE CLIP_MON CLIP_UPDATER COUNT : Nat)
    (c : synNetContext) (w : World) (wl : Bool) (pre : List PollAnswer) (a : PollAnswer)
    (rest : List PollAnswer) (s : PollState)
    (hpre : loopRounds IDLE CLIP_MON CLIP_UPDATER COUNT pre (netPoll_entry c w wl) = some s) :
    (0 < a.poll_ret →
      Int.toNat (((syn_get_time a.ts : Int) -
          ((afterNetworkStep a s).syn_ctx.m_lastMessageTime : Int)) % 4294967296)
        > IDLE % 4294967296 →
      ∃ s1, netPoll IDLE CLIP_MON CLIP_UPDATER COUNT c w wl (pre ++ a :: rest) = some s1 ∧
        s1.snet.fd = -1 ∧
        ∃ evs, s1.world.trace = s.world.trace ++ evs ∧ Event.synNetDisconnect ∈ evs ∧
          ∀ ev ∈ evs, ev.isDispatch = false) ∧
    (a.poll_ret = 0 →
      ∃ s1, netPoll IDLE CLIP_MON CLIP_UPDATER COUNT c w wl (pre ++ a :: rest) = some s1 ∧
        s1.snet.fd = -1 ∧
        ∃ evs, s1.world.trace = s.world.trace ++ evs ∧ Event.synNetDisconnect ∈ evs ∧
          ∀ ev ∈ evs, ev.isDispatch = false) := by
  rw [netPoll_eq, netPoll_loop_append IDLE CLIP_MON CLIP_UPDATER COUNT pre _ s _ hpre]
  constructor
  · intro hp hidle
    obtain ⟨s1, b1, b2, evs, b3, b4, b5⟩ := netPoll_body_timeout IDLE CLIP_MON CLIP_UPDATER COUNT
      a ⟨s.snet, s.world.emit (Event.poll (if s.snet.syn_ctx.m_connected then COUNT else 1)),
        s.wl_pollout⟩ (by simpa [afterNetworkStep] using hidle)
    refine ⟨s1, by simp only [netPoll_loop, gt_iff_lt, hp, if_true, b1], b2, ?_⟩
    refine ⟨Event.poll (if s.snet.syn_ctx.m_connected then COUNT else 1) :: evs, ?_, by simp [b4],
      ?_⟩
    · rw [b3]; simp
    · intro ev hev
      simp only [List.mem_cons] at hev
      rcases hev with h | h
      · subst h; rfl
      · exact b5 ev h
  · intro hz
    obtain ⟨d1, evs, d2, d3⟩ := synNetDisconnect_fd s.snet
      ((s.world.emit (Event.poll (if s.snet.syn_ctx.m_connected then COUNT else 1))).emit
        (Event.logErr "Poll timeout encountered -- disconnecting synergy")) a.tls_close_ret
    refine ⟨⟨(synNetDisconnect s.snet
      ((s.world.emit (Event.poll (if s.snet.syn_ctx.m_connected then COUNT else 1))).emit
        (Event.logErr "Poll timeout encountered -- disconnecting synergy")) a.tls_close_ret).ctx,
      (synNetDisconnect s.snet
      ((s.world.emit (Event.poll (if s.snet.syn_ctx.m_connected then COUNT else 1))).emit
        (Event.logErr "Poll timeout encountered -- disconnecting synergy")) a.tls_close_ret).world.emit Event.sigHandleRun, s.wl_pollout⟩, ?_, ?_, ?_⟩
    · simp only [netPoll_loop, hz, gt_iff_lt, lt_self_iff_false, if_false, if_true]
    · exact d1
    refine ⟨[Event.poll (if s.snet.syn_ctx.m_connected then COUNT else 1),
      Event.logErr "Poll timeout encountered -- disconnecting synergy", Event.synNetDisconnect]
      ++ evs ++ [Event.sigHandleRun], ?_, by simp, ?_⟩
    · simp only [World.emit_trace]
      rw [d2]; simp
    · intro ev hev
      simp only [List.cons_append, List.nil_append, List.mem_cons, List.mem_append,
        List.not_mem_nil, or_false] at hev
      rcases hev with h | h | h | h | h
      · subst h; rfl
      · subst h; rfl
      · subst h; rfl
      · exact (d3 ev h).1
      · subst h; rfl

/-- The statement `idle_timeout_forces_disconnect` at the first trip round the
loop on the connected session `ctxOpen`: with the last message at 0 ms, the
clock at 5000 ms and an idle limit of 2000 ms; and with `poll` answering
zero. -/
theorem idle_timeout_forces_disconnect_witness :
    (∃ s1, netPoll 2000 2 3 5 ctxOpen worldEmpty false ([] ++ answerLate :: []) = some s1 ∧
      s1.snet.fd = -1 ∧
      ∃ evs, s1.world.trace = (netPoll_entry ctxOpen worldEmpty false).world.trace ++ evs ∧
        Event.synNetDisconnect ∈ evs ∧ ∀ ev ∈ evs, ev.isDispatch = false) ∧
    (∃ s1, netPoll 2000 2 3 5 ctxOpen worldEmpty false ([] ++ answerPollTimeout :: [])
        = some s1 ∧
      s1.snet.fd = -1 ∧
      ∃ evs, s1.world.trace = (netPoll_entry ctxOpen worldEmpty false).world.trace ++ evs ∧
        Event.synNetDisconnect ∈ evs ∧ ∀ ev ∈ evs, ev.isDispatch = false) :=
  ⟨(idle_timeout_forces_disconnect 2000 2 3 5 ctxOpen worldEmpty false [] answerLate []
      (netPoll_entry ctxOpen worldEmpty false) rfl).1 (by decide) (by decide),
   (idle_timeout_forces_disconnect 2000 2 3 5 ctxOpen worldEmpty false [] answerPollTimeout []
      (netPoll_entry ctxOpen worldEmpty false) rfl).2 (by decide)⟩

/-- C10. Network priority.  In every trip round the loop of `netPoll` the
calls are recorded in this order: signal handling, then the engine step
`uSynergyUpdate` when the network slot reported `POLLIN`, then the clock
reading, then the rest.  The engine step never occurs in the rest, so no
display or clipboard dispatch precedes it; a dispatch occurs in the rest only
when the engine's connected flag is true after the network step; and when the
idle check does not fire and the flag is true, `wlPollProc` is the first
dispatch of the rest. -/
theorem network_priority (IDLE CLIP_MON CLIP_UPDATER COUNT : Nat) (a : PollAnswer)
    (s : PollState) :
    ∃ tail, (netPoll_body IDLE CLIP_MON CLIP_UPDATER COUNT a s).state.world.trace
        = s.world.trace ++ ([Event.sigHandleRun] ++
            (if a.syn_pollin then [Event.uSynergyUpdate] else []) ++ [Event.m_getTimeFunc])
          ++ tail ∧
      Event.uSynergyUpdate ∉ tail ∧
      ((∃ ev ∈ tail, ev.isDispatch = true) →
        (afterNetworkStep a s).syn_ctx.m_connected = true) ∧
      (¬ (Int.toNat (((syn_get_time a.ts : Int) -
            ((afterNetworkStep a s).syn_ctx.m_lastMessageTime : Int)) % 4294967296)
          > IDLE % 4294967296) →
        (afterNetworkStep a s).syn_ctx.m_connected = true →
        ∃ t2, tail = Event.sigHandleRun :: Event.wlPollProc a.wl_revents :: t2) := by
  by_cases hidle : Int.toNat (((syn_get_time a.ts : Int) -
      ((afterNetworkStep a s).syn_ctx.m_lastMessageTime : Int)) % 4294967296)
      > IDLE % 4294967296
  · obtain ⟨s1, b1, _, _⟩ := netPoll_body_timeout IDLE CLIP_MON CLIP_UPDATER COUNT a s hidle
    by_cases hp : a.syn_pollin = true
    · simp only [afterNetworkStep, hp, if_true] at hidle
      obtain ⟨_, evs, d2, d3⟩ := synNetDisconnect_fd (a.update s.snet s.world.store).1
        ((((s.world.emit Event.sigHandleRun).setStore
          (a.update s.snet s.world.store).2).emit Event.uSynergyUpdate).emit Event.m_getTimeFunc |>.emit
          (Event.logErr "Synergy timeout encountered -- disconnecting")) a.tls_close_ret
      refine ⟨Event.logErr "Synergy timeout encountered -- disconnecting" ::
        Event.synNetDisconnect :: evs, ?_, ?_, ?_, ?_⟩
      · simp only [netPoll_body, hp, if_true, World.emit_store]
        rw [if_pos hidle]
        simp only [LoopStep.state]
        rw [d2]; simp
      · simp only [List.mem_cons, not_or]
        exact ⟨by simp, by simp, fun h => (d3 _ h).2 rfl⟩
      · rintro ⟨ev, hev, hd⟩
        simp only [List.mem_cons] at hev
        rcases hev with h | h | h
        · subst h; exact absurd hd (by simp [Event.isDispatch])
        · subst h; exact absurd hd (by simp [Event.isDispatch])
        · rw [(d3 ev h).1] at hd; exact absurd hd (by simp)
      · intro hn
        exact absurd (by simpa [afterNetworkStep, hp] using hidle) hn
    · have hp1 : a.syn_pollin = false := by simpa using hp
      simp only [afterNetworkStep, hp1, Bool.false_eq_true, if_false] at hidle
      obtain ⟨_, evs, d2, d3⟩ := synNetDisconnect_fd s.snet
        (((s.world.emit Event.sigHandleRun).emit Event.m_getTimeFunc).emit
          (Event.logErr "Synergy timeout encountered -- disconnecting")) a.tls_close_ret
      refine ⟨Event.logErr "Synergy timeout encountered -- disconnecting" ::
        Event.synNetDisconnect :: evs, ?_, ?_, ?_, ?_⟩
      · simp only [netPoll_body, hp1, Bool.false_eq_true, if_false]
        rw [if_pos hidle]
        simp only [LoopStep.state]
        rw [d2]; simp
      · simp only [List.mem_cons, not_or]
        exact ⟨by simp, by simp, fun h => (d3 _ h).2 rfl⟩
      · rintro ⟨ev, hev, hd⟩
        simp only [List.mem_cons] at hev
        rcases hev with h | h | h
        · subst h; exact absurd hd (by simp [Event.isDispatch])
        · subst h; exact absurd hd (by simp [Event.isDispatch])
        · rw [(d3 ev h).1] at hd; exact absurd hd (by simp)
      · intro hn
        exact absurd (by simpa [afterNetworkStep, hp1] using hidle) hn
  · by_cases hc : (afterNetworkStep a s).syn_ctx.m_connected = true
    · by_cases hp : a.syn_pollin = true
      · simp only [afterNetworkStep, hp, if_true] at hidle hc
        obtain ⟨evs, l1, l2⟩ := clipUpdaterLoop_trace (COUNT - CLIP_UPDATER)
          (((((((s.world.emit Event.sigHandleRun).setStore
          (a.update s.snet s.world.store).2).emit Event.uSynergyUpdate).emit Event.m_getTimeFunc |>.emit Event.sigHandleRun).emit
            (Event.wlPollProc a.wl_revents)).emit Event.sigHandleRun).emit
            (Event.clipMonitorPollProc CLIP_MON) |>.emit Event.sigHandleRun) CLIP_UPDATER
        refine ⟨Event.sigHandleRun :: Event.wlPollProc a.wl_revents :: Event.sigHandleRun ::
          Event.clipMonitorPollProc CLIP_MON :: Event.sigHandleRun :: evs, ?_, ?_,
          fun _ => by simpa [afterNetworkStep, hp] using hc, fun _ _ => ⟨_, rfl⟩⟩
        · simp only [netPoll_body, hp, if_true, World.emit_store]
          rw [if_neg hidle]
          simp only [hc, if_true, LoopStep.state]
          rw [l1]; simp
        · simp only [List.mem_cons, not_or]
          exact ⟨by simp, by simp, by simp, by simp, by simp, fun h => l2 _ h rfl⟩
      · have hp1 : a.syn_pollin = false := by simpa using hp
        simp only [afterNetworkStep, hp1, Bool.false_eq_true, if_false] at hidle hc
        obtain ⟨evs, l1, l2⟩ := clipUpdaterLoop_trace (COUNT - CLIP_UPDATER)
          (((((((s.world.emit Event.sigHandleRun).emit Event.m_getTimeFunc).emit
            Event.sigHandleRun).emit
            (Event.wlPollProc a.wl_revents)).emit Event.sigHandleRun).emit
            (Event.clipMonitorPollProc CLIP_MON)).emit Event.sigHandleRun) CLIP_UPDATER
        refine ⟨Event.sigHandleRun :: Event.wlPollProc a.wl_revents :: Event.sigHandleRun ::
          Event.clipMonitorPollProc CLIP_MON :: Event.sigHandleRun :: evs, ?_, ?_,
          fun _ => by simpa [afterNetworkStep, hp1] using hc, fun _ _ => ⟨_, rfl⟩⟩
        · simp only [netPoll_body, hp1, Bool.false_eq_true, if_false]
          rw [if_neg hidle]
          simp only [hc, if_true, LoopStep.state]
          rw [l1]; simp
        · simp only [List.mem_cons, not_or]
          exact ⟨by simp, by simp, by simp, by simp, by simp, fun h => l2 _ h rfl⟩
    · by_cases hp : a.syn_pollin = true
      · have hc1 := hc
        simp only [afterNetworkStep, hp, if_true] at hidle hc1
        refine ⟨[Event.sigHandleRun], ?_, by simp, ?_, fun _ h => absurd h hc⟩
        · simp only [netPoll_body, hp, if_true, World.emit_store]
          rw [if_neg hidle]
          simp [hc1, LoopStep.state]
        · rintro ⟨ev, hev, hd⟩
          simp only [List.mem_singleton] at hev
          subst hev
          exact absurd hd (by simp [Event.isDispatch])
      · have hp1 : a.syn_pollin = false := by simpa using hp
        have hc1 := hc
        simp only [afterNetworkStep, hp1, Bool.false_eq_true, if_false] at hidle hc1
        refine ⟨[Event.sigHandleRun], ?_, by simp, ?_, fun _ h => absurd h hc⟩
        · simp only [netPoll_body, hp1, Bool.false_eq_true, if_false]
          rw [if_neg hidle]
          simp [hc1, LoopStep.state]
        · rintro ⟨ev, hev, hd⟩
          simp only [List.mem_singleton] at hev
          subst hev
          exact absurd hd (by simp [Event.isDispatch])

theorem attemptMarks_append (a b : List Event) :
    attemptMarks (a ++ b) = attemptMarks a ++ attemptMarks b := by
  simp [attemptMarks]

theorem attemptMarks_none (evs : List Event) (h : ∀ ev ∈ evs, ev.isAttemptMark = false) :
    attemptMarks evs = [] := by
  simp only [attemptMarks, List.filter_eq_nil_iff]
  intro ev hev
  simp [h ev hev]

/-- The last part of an attempt records no attempt mark. -/
theorem syn_connect_setup_handshake_marks (c : synNetContext) (w : World) (os : SetupOracle) :
    Extends (fun ev => ev.isAttemptMark = false) w (syn_connect_setup_handshake c w os).world := by
  by_cases h6 : os.tls_configure_ret = 0
  swap
  · simp [syn_connect_setup_handshake, h6, Extends, Event.isAttemptMark]
  by_cases h7 : os.tls_connect_socket_ret = 0
  swap
  · simp [syn_connect_setup_handshake, h6, h7, Extends, Event.isAttemptMark]
  by_cases h8 : os.tls_handshake_ret = 0
  swap
  · simp [syn_connect_setup_handshake, h6, h7, h8, Extends, Event.isAttemptMark]
  cases hp : os.tls_peer_cert_hash_ret with
  | none => simp [syn_connect_setup_handshake, h6, h7, h8, hp, Extends, Event.isAttemptMark]
  | some p =>
    cases hh : c.tls_hash with
    | none =>
      by_cases h9 : os.configWriteString_ok = true <;>
      simp [syn_connect_setup_handshake, store_cert_hash, configWriteString, strcasecmp_self,
        h6, h7, h8, hp, hh, h9, Extends, Event.isAttemptMark]
    | some t =>
      by_cases h10 : strcasecmp t p = 0 <;>
      simp [syn_connect_setup_handshake, h6, h7, h8, hp, hh, h10, Extends, Event.isAttemptMark]

/-- The client-certificate part of an attempt records no attempt mark. -/
theorem syn_connect_setup_cert_marks (c : synNetContext) (w : World) (os : SetupOracle) :
    Extends (fun ev => ev.isAttemptMark = false) w (syn_connect_setup_cert c w os).world := by
  by_cases h5 : os.cert_file_exists = true
  · by_cases h5a : os.tls_config_set_cert_file_ret = 0
    · simp only [syn_connect_setup_cert, h5, h5a, if_true, ne_eq, not_true_eq_false, if_false]
      exact Extends.trans (Extends.emit w (Event.osFileExists "tls/cert") rfl)
        (Extends.trans (Extends.emit _ Event.tls_config_set_cert_file rfl)
          (syn_connect_setup_handshake_marks c _ os))
    · simp [syn_connect_setup_cert, h5, h5a, Extends, Event.isAttemptMark]
  · simp only [syn_connect_setup_cert, h5, Bool.false_eq_true, if_false]
    exact Extends.trans (Extends.emit w (Event.osFileExists "tls/cert") rfl)
      (syn_connect_setup_handshake_marks c _ os)

/-- One attempt records exactly one attempt mark, the `socket` call for its
candidate, and records it first. -/
theorem syn_connect_setup_marks (c : synNetContext) (w : World) (ai : addrinfo)
    (os : SetupOracle) :
    ∃ evs, (syn_connect_setup c w ai os).world.trace = w.trace ++ Event.socket ai :: evs ∧
      ∀ ev ∈ evs, ev.isAttemptMark = false := by
  by_cases h1 : os.socket_ret = -1
  · simp [syn_connect_setup, h1, Event.isAttemptMark]
  by_cases h2 : os.connect_ret = 0
  swap
  · simp [syn_connect_setup, h1, h2, Event.isAttemptMark]
  by_cases h0 : c.tls = true
  swap
  · simp [syn_connect_setup, h1, h2, h0, Event.isAttemptMark]
  cases h3 : os.tls_client_ret with
  | none => simp [syn_connect_setup, h1, h2, h3, h0, Event.isAttemptMark]
  | some tc =>
    by_cases h4 : os.tls_config_new_ok = false
    · simp [syn_connect_setup, h1, h2, h3, h4, h0, Event.isAttemptMark]
    have key : ∀ c1 : synNetContext, ∃ evs,
        (syn_connect_setup_cert c1 (((((w.emit (Event.socket ai)).emit
          (Event.connect os.socket_ret ai)).emit Event.tls_client).emit
          Event.tls_config_new).emit (Event.configTryString ("tls/hash/" ++ c.host))) os).world.trace
          = w.trace ++ Event.socket ai :: evs ∧ ∀ ev ∈ evs, ev.isAttemptMark = false := by
      intro c1
      obtain ⟨evs, e1, e2⟩ := syn_connect_setup_cert_marks c1 (((((w.emit
          (Event.socket ai)).emit (Event.connect os.socket_ret ai)).emit Event.tls_client).emit
          Event.tls_config_new).emit (Event.configTryString ("tls/hash/" ++ c.host))) os
      refine ⟨[Event.connect os.socket_ret ai, Event.tls_client, Event.tls_config_new,
        Event.configTryString ("tls/hash/" ++ c.host)] ++ evs, ?_, ?_⟩
      · rw [e1]; simp
      · intro ev hev
        simp only [List.cons_append, List.nil_append, List.mem_cons] at hev
        rcases hev with h | h | h | h | h
        · subst h; rfl
        · subst h; rfl
        · subst h; rfl
        · subst h; rfl
        · exact e2 ev h
    cases hl : configTryString w.store ("tls/hash/" ++ c.host) with
    | none =>
      by_cases ht : c.tls_tofu = false
      · simp [syn_connect_setup, load_cert_hash, h1, h2, h3, h4, h0, hl, ht,
          Event.isAttemptMark]
      · simp only [syn_connect_setup, load_cert_hash, synNetContext.set_fd_fd, h1, if_false,
          h2, ne_eq, not_true_eq_false, synNetContext.set_fd_tls, h0, if_true,
          synNetContext.set_tls_ctx_tls_ctx, h3, h4, World.emit_store,
          synNetContext.set_tls_ctx_host, synNetContext.set_fd_host, hl,
          synNetContext.set_tls_hash_tls_hash, synNetContext.set_tls_hash_tls_tofu,
          synNetContext.set_tls_ctx_tls_tofu, synNetContext.set_fd_tls_tofu, ht]
        simpa using key _
    | some hsh =>
      simp only [syn_connect_setup, load_cert_hash, synNetContext.set_fd_fd, h1, if_false,
        h2, ne_eq, not_true_eq_false, synNetContext.set_fd_tls, h0, if_true,
        synNetContext.set_tls_ctx_tls_ctx, h3, h4, World.emit_store,
        synNetContext.set_tls_ctx_host, synNetContext.set_fd_host, hl,
        synNetContext.set_tls_hash_tls_hash]
      simpa using key _

/-- `synNetDisconnect` records exactly one attempt mark, its own entry, and
records it first. -/
theorem synNetDisconnect_marks (c : synNetContext) (w : World) (r : Int) :
    ∃ evs, (synNetDisconnect c w r).world.trace = w.trace ++ Event.synNetDisconnect :: evs ∧
      ∀ ev ∈ evs, ev.isAttemptMark = false := by
  by_cases h1 : c.fd = -1
  · simp [synNetDisconnect, h1]
  cases h2 : c.tls_ctx with
  | none => simp [synNetDisconnect, h1, h2, Event.isAttemptMark]
  | some t =>
    by_cases h3 : r = 0 <;> simp [synNetDisconnect, h1, h2, h3, Event.isAttemptMark]

/-- After an attempt the context's socket is the one `socket` returned for the
candidate, and in secure mode a successful attempt leaves the TLS handle that
`tls_client` returned for it. -/
theorem syn_connect_setup_built (c : synNetContext) (w : World) (ai : addrinfo)
    (os : SetupOracle) :
    (syn_connect_setup c w ai os).ctx.fd = os.socket_ret ∧
    ((syn_connect_setup c w ai os).ret = true → c.tls = true →
      (syn_connect_setup c w ai os).ctx.tls_ctx = os.tls_client_ret ∧
      os.tls_client_ret ≠ none) := by
  by_cases h1 : os.socket_ret = -1
  · simp [syn_connect_setup, h1]
  by_cases h2 : os.connect_ret = 0
  swap
  · simp [syn_connect_setup, h1, h2]
  by_cases h0 : c.tls = true
  swap
  · simp [syn_connect_setup, h1, h2, h0]
  cases h3 : os.tls_client_ret with
  | none => simp [syn_connect_setup, h1, h2, h3, h0]
  | some tc =>
    by_cases h4 : os.tls_config_new_ok = false <;>
    cases hl : configTryString w.store ("tls/hash/" ++ c.host) <;>
    by_cases ht : c.tls_tofu = false <;>
    simp [syn_connect_setup, load_cert_hash, h1, h2, h3, h4, h0, hl, ht,
      syn_connect_setup_cert_frame]

/-- The candidate loop on candidates that all fail, followed by more
candidates, is the loop on the later candidates from the state the failures
leave. -/
theorem syn_connect_loop_skip (IDLE : Nat) (ts : timespec) (pre : List Candidate) :
    ∀ (c : synNetContext) (w : World) (l : List Candidate), allFail IDLE c w pre = true →
      syn_connect_loop IDLE ts c w (pre ++ l)
        = syn_connect_loop IDLE ts (afterFailures IDLE c w pre).1 (afterFailures IDLE c w pre).2
            l := by
  induction pre with
  | nil => intro c w l _; rfl
  | cons h rest ih =>
    intro c w l hf
    simp only [allFail, Bool.and_eq_true, Bool.not_eq_true'] at hf
    simp only [List.cons_append, syn_connect_loop, hf.1, Bool.false_eq_true, if_false,
      afterFailures]
    exact ih _ _ l hf.2

/-- The attempt marks recorded while candidates fail one after the other. -/
theorem afterFailures_marks (IDLE : Nat) (pre : List Candidate) :
    ∀ (c : synNetContext) (w : World),
      ∃ evs, (afterFailures IDLE c w pre).2.trace = w.trace ++ evs ∧
        attemptMarks evs = failedMarks pre := by
  induction pre with
  | nil => intro c w; exact ⟨[], by simp [afterFailures], rfl⟩
  | cons h rest ih =>
    intro c w
    obtain ⟨e1, t1, m1⟩ := syn_connect_setup_marks c (w.emit (Event.alarm (IDLE / 1000)))
      h.ai h.os
    obtain ⟨e2, t2, m2⟩ := synNetDisconnect_marks
      (syn_connect_setup c (w.emit (Event.alarm (IDLE / 1000))) h.ai h.os).ctx
      ((syn_connect_setup c (w.emit (Event.alarm (IDLE / 1000))) h.ai h.os).world.emit
        (Event.alarm 0)) h.tls_close_ret
    obtain ⟨e3, t3, m3⟩ := ih
      (synNetDisconnect (syn_connect_setup c (w.emit (Event.alarm (IDLE / 1000))) h.ai h.os).ctx
        ((syn_connect_setup c (w.emit (Event.alarm (IDLE / 1000))) h.ai h.os).world.emit
          (Event.alarm 0)) h.tls_close_ret).ctx
      (synNetDisconnect (syn_connect_setup c (w.emit (Event.alarm (IDLE / 1000))) h.ai h.os).ctx
        ((syn_connect_setup c (w.emit (Event.alarm (IDLE / 1000))) h.ai h.os).world.emit
          (Event.alarm 0)) h.tls_close_ret).world
    refine ⟨[Event.alarm (IDLE / 1000)] ++ (Event.socket h.ai :: e1) ++ [Event.alarm 0] ++
      (Event.synNetDisconnect :: e2) ++ e3, ?_, ?_⟩
    · simp only [afterFailures]
      rw [t3, t2, World.emit_trace, t1, World.emit_trace]
      simp
    · simp only [attemptMarks_append, m3]
      simp only [attemptMarks, List.filter_cons, List.filter_nil, Event.isAttemptMark]
      have f1 : List.filter Event.isAttemptMark e1 = [] := attemptMarks_none e1 m1
      have f2 : List.filter Event.isAttemptMark e2 = [] := attemptMarks_none e2 m2
      simp [f1, f2, failedMarks]

/-- Failures starting from a fully disconnected context end in one. -/
theorem afterFailures_disconnected (IDLE : Nat) (pre : List Candidate) :
    ∀ (c : synNetContext) (w : World), FullyDisconnected c →
      FullyDisconnected (afterFailures IDLE c w pre).1 := by
  induction pre with
  | nil => intro c w hc; exact hc
  | cons h rest ih =>
    intro c w hc
    simp only [afterFailures]
    apply ih
    obtain ⟨i1, i2⟩ := syn_connect_setup_inv c (w.emit (Event.alarm (IDLE / 1000))) h.ai h.os
      hc.2.1 hc.2.2
    exact synNetDisconnect_clears _ _ _ i1 i2

/-- Failures leave the secure-mode flag as it was. -/
theorem afterFailures_tls (IDLE : Nat) (pre : List Candidate) :
    ∀ (c : synNetContext) (w : World), (afterFailures IDLE c w pre).1.tls = c.tls := by
  induction pre with
  | nil => intro c w; rfl
  | cons h rest ih =>
    intro c w
    simp only [afterFailures]
    rw [ih]
    exact (synNetDisconnect_frame _ _ _).2.2.1.trans
      (syn_connect_setup_frame c _ h.ai h.os).2.2.1

theorem syn_connect_resolved (IDLE : Nat) (c : synNetContext) (w : World)
    (l : List Candidate) (r0 : Int) (ts : timespec) :
    syn_connect IDLE c w 0 l r0 ts
      = ⟨(syn_connect_loop IDLE ts (connectEntry c w r0).ctx (connectEntry c w r0).world l).ret,
         (syn_connect_loop IDLE ts (connectEntry c w r0).ctx (connectEntry c w r0).world l).ctx,
         (syn_connect_loop IDLE ts (connectEntry c w r0).ctx
            (connectEntry c w r0).world l).world.emit Event.freeaddrinfo⟩ := by
  simp [syn_connect, connectEntry]

/-- C7. Candidate fallback.  Let resolution succeed and let the candidate loop
start in the state `connectEntry`.  If `syn_connect_setup` fails on each
candidate of `pre`, tried in order with the clean-up in between, and succeeds
on the next candidate `k`, then `syn_connect` returns success for the list
`pre ++ k :: post`, the context is the one that attempt on `k` built (its
socket is the descriptor `socket` returned for `k`, and in secure mode its TLS
handle the one `tls_client` returned for `k`) with the last message time set,
and the attempt marks recorded are, in order, one `socket` call followed by
one entry into `synNetDisconnect` for each candidate of `pre` and then the
`socket` call for `k`: nothing is attempted on `post`.  If every candidate
fails, `syn_connect` returns failure with the context fully disconnected. -/
theorem candidate_fallback (IDLE : Nat) (c : synNetContext) (w : World) (r0 : Int)
    (ts : timespec) (hc : Reachable c) :
    (∀ (pre : List Candidate) (k : Candidate) (post : List Candidate),
      allFail IDLE (connectEntry c w r0).ctx (connectEntry c w r0).world pre = true →
      (syn_connect_setup
        (afterFailures IDLE (connectEntry c w r0).ctx (connectEntry c w r0).world pre).1
        ((afterFailures IDLE (connectEntry c w r0).ctx (connectEntry c w r0).world pre).2.emit
          (Event.alarm (IDLE / 1000))) k.ai k.os).ret = true →
      (syn_connect IDLE c w 0 (pre ++ k :: post) r0 ts).ret = true ∧
      (syn_connect IDLE c w 0 (pre ++ k :: post) r0 ts).ctx =
        (syn_connect_setup
          (afterFailures IDLE (connectEntry c w r0).ctx (connectEntry c w r0).world pre).1
          ((afterFailures IDLE (connectEntry c w r0).ctx (connectEntry c w r0).world pre).2.emit
            (Event.alarm (IDLE / 1000))) k.ai k.os).ctx.set_m_lastMessageTime
          (syn_get_time ts) ∧
      (syn_connect IDLE c w 0 (pre ++ k :: post) r0 ts).ctx.fd = k.os.socket_ret ∧
      (c.tls = true →
        (syn_connect IDLE c w 0 (pre ++ k :: post) r0 ts).ctx.tls_ctx = k.os.tls_client_ret ∧
        k.os.tls_client_ret ≠ none) ∧
      ∃ evs, (syn_connect IDLE c w 0 (pre ++ k :: post) r0 ts).world.trace
          = (connectEntry c w r0).world.trace ++ evs ∧
        attemptMarks evs = failedMarks pre ++ [Event.socket k.ai]) ∧
    (∀ all : List Candidate,
      allFail IDLE (connectEntry c w r0).ctx (connectEntry c w r0).world all = true →
      (syn_connect IDLE c w 0 all r0 ts).ret = false ∧
      FullyDisconnected (syn_connect IDLE c w 0 all r0 ts).ctx ∧
      ∃ evs, (syn_connect IDLE c w 0 all r0 ts).world.trace
          = (connectEntry c w r0).world.trace ++ evs ∧
        attemptMarks evs = failedMarks all) := by
  constructor
  · intro pre k post hf hk
    obtain ⟨b1, b2⟩ := syn_connect_setup_built
      (afterFailures IDLE (connectEntry c w r0).ctx (connectEntry c w r0).world pre).1
      ((afterFailures IDLE (connectEntry c w r0).ctx (connectEntry c w r0).world pre).2.emit
        (Event.alarm (IDLE / 1000))) k.ai k.os
    obtain ⟨e1, t1, m1⟩ := afterFailures_marks IDLE pre (connectEntry c w r0).ctx
      (connectEntry c w r0).world
    obtain ⟨e2, t2, m2⟩ := syn_connect_setup_marks
      (afterFailures IDLE (connectEntry c w r0).ctx (connectEntry c w r0).world pre).1
      ((afterFailures IDLE (connectEntry c w r0).ctx (connectEntry c w r0).world pre).2.emit
        (Event.alarm (IDLE / 1000))) k.ai k.os
    have htls : (afterFailures IDLE (connectEntry c w r0).ctx
        (connectEntry c w r0).world pre).1.tls = c.tls :=
      (afterFailures_tls IDLE pre _ _).trans (synNetDisconnect_frame c _ r0).2.2.1
    rw [syn_connect_resolved, syn_connect_loop_skip IDLE ts pre _ _ _ hf]
    simp only [syn_connect_loop, hk, if_true, synNetContext.set_m_lastMessageTime_fd]
    refine ⟨trivial, trivial, b1, fun h => b2 hk (htls.trans h), ?_⟩
    refine ⟨e1 ++ [Event.alarm (IDLE / 1000)] ++ (Event.socket k.ai :: e2) ++
      [Event.alarm 0, Event.m_getTimeFunc, Event.freeaddrinfo], ?_, ?_⟩
    · simp only [World.emit_trace]
      rw [t2, World.emit_trace, t1]
      simp
    · simp only [attemptMarks_append, m1]
      simp only [attemptMarks, List.filter_cons, List.filter_nil, Event.isAttemptMark]
      have f2 : List.filter Event.isAttemptMark e2 = [] := attemptMarks_none e2 m2
      simp [f2]
  · intro all hf
    have hentry : FullyDisconnected (connectEntry c w r0).ctx :=
      synNetDisconnect_clears c _ r0 hc.inv.1 hc.inv.2
    obtain ⟨e1, t1, m1⟩ := afterFailures_marks IDLE all (connectEntry c w r0).ctx
      (connectEntry c w r0).world
    have hskip := syn_connect_loop_skip IDLE ts all (connectEntry c w r0).ctx
      (connectEntry c w r0).world [] hf
    rw [List.append_nil] at hskip
    rw [syn_connect_resolved, hskip]
    simp only [syn_connect_loop]
    refine ⟨trivial, afterFailures_disconnected IDLE all _ _ hentry, ?_⟩
    refine ⟨e1 ++ [Event.freeaddrinfo], ?_, ?_⟩
    · simp only [World.emit_trace]
      rw [t1]; simp
    · simp only [attemptMarks_append, m1]
      simp [attemptMarks, Event.isAttemptMark]

/-- The statement `candidate_fallback` on three candidates for `example.com`:
the first is refused, the second succeeds, the third is never tried. -/
theorem candidate_fallback_witness :
    (syn_connect 2000 ctxInit worldEmpty 0 ([candRefused] ++ candGood :: [candRefused]) 0
      ⟨1, 0⟩).ret = true ∧
    (syn_connect 2000 ctxInit worldEmpty 0 ([candRefused] ++ candGood :: [candRefused]) 0
      ⟨1, 0⟩).ctx.fd = candGood.os.socket_ret ∧
    ∃ evs, (syn_connect 2000 ctxInit worldEmpty 0 ([candRefused] ++ candGood :: [candRefused]) 0
        ⟨1, 0⟩).world.trace = (connectEntry ctxInit worldEmpty 0).world.trace ++ evs ∧
      attemptMarks evs = failedMarks [candRefused] ++ [Event.socket candGood.ai] :=
  ⟨((candidate_fallback 2000 ctxInit worldEmpty 0 ⟨1, 0⟩
      (Reachable.init ctxTofu engine0 "example.com" "24800" true true ⟨rfl, rfl⟩)).1
      [candRefused] candGood [candRefused] (by decide) (by decide)).1,
   ((candidate_fallback 2000 ctxInit worldEmpty 0 ⟨1, 0⟩
      (Reachable.init ctxTofu engine0 "example.com" "24800" true true ⟨rfl, rfl⟩)).1
      [candRefused] candGood [candRefused] (by decide) (by decide)).2.2.1,
   ((candidate_fallback 2000 ctxInit worldEmpty 0 ⟨1, 0⟩
      (Reachable.init ctxTofu engine0 "example.com" "24800" true true ⟨rfl, rfl⟩)).1
      [candRefused] candGood [candRefused] (by decide) (by decide)).2.2.2.2⟩

end Waynergy
